import Mathlib

/-!
Verification development for the Location Enrichment & Spatial Dataset
Query Engine of the field-data-collection client.

The TypeScript services are shallowly embedded as executable Lean
definitions:

* `DSM`     — `DatasetManager.getValuesAtPoint` (layer query engine);
* `LDS`     — the current `LocationDataService` (authentic point-in-polygon
              administrative resolution, `enrichLocation` orchestration);
* `LegacyLDS` — the older `LocationDataService` still present in the
              repository, whose `getAdminData` falls back to hard-coded
              bounding boxes;
* `Weather` — `WeatherService.getWeather` with its per-coordinate cache;
* `CS`      — `CoreStackService` availability logic;
* `DW`      — `DynamicWorldService` point-data stubs.

JavaScript numbers are modelled as `Rat` (coordinates, areas) and `Int`
(years, counts); dynamic JS values occurring in feature properties and
CSV records are modelled by the inductive `Value` below, with JS
truthiness made explicit.  Asynchronous calls to remote adapters are
modelled by passing their settled outcomes in an environment record;
code that can throw is modelled with `Except`.
-/

/-- A dynamic JavaScript scalar value as it occurs in GeoJSON feature
properties and CSV record cells.  `undef` is JS `undefined` (also used
for a missing property read), `null` is JS `null`.  Array- and
object-valued cells do not occur in the data relevant here and are not
modelled. -/
inductive Value where
  | str (s : String)
  | num (q : Rat)
  | boolean (b : Bool)
  | null
  | undef
deriving DecidableEq, Repr

/-- JS truthiness of a `Value` (empty string, `0`, `false`, `null` and
`undefined` are falsy). -/
def Value.truthy : Value → Bool
  | .str s => s ≠ ""
  | .num q => q ≠ 0
  | .boolean b => b
  | .null => false
  | .undef => false

/-- JS `a || b`. -/
def jsOr (a b : Value) : Value := if a.truthy then a else b

/-- An object is an association list of its own enumerable properties,
in insertion order. -/
abbrev Record := List (String × Value)

section AssocList

variable {α : Type}

/-- Map/object read: value stored at the first occurrence of key `k`. -/
def alGet (l : List (String × α)) (k : String) : Option α :=
  (l.find? (fun p => p.1 = k)).map (·.2)

/-- Map/object write `l[k] = v`: replaces in place if the key exists (JS
objects and `Map` keep the original insertion position), otherwise
appends. -/
def alSet : List (String × α) → String → α → List (String × α)
  | [], k, v => [(k, v)]
  | (k0, v0) :: tl, k, v =>
    if k0 = k then (k, v) :: tl else (k0, v0) :: alSet tl k v

end AssocList

/-- Property read `o[k]` on a feature-properties / CSV-record object. -/
def getProperty (o : List (String × Value)) (k : String) : Option Value :=
  alGet o k

/-- Property read as a JS expression: a missing key reads as
`undefined`. -/
def getPropertyD (o : List (String × Value)) (k : String) : Value :=
  (getProperty o k).getD .undef

namespace DSM

/-!
Embedding of `DatasetManager.getValuesAtPoint` (the Layer Query
Engine).  The call into the external `@turf/turf` library,
`turf.booleanPointInPolygon(point, feature)`, is abstracted as the
boolean field `contains` of each feature, applied to the query
latitude/longitude.
-/

/-- `feature.geometry.type`, as far as the query engine inspects it. -/
inductive GeomType where
  | polygon
  | multiPolygon
  | other
deriving DecidableEq, Repr

/-- A GeoJSON feature: its geometry type, the point-in-polygon test of
its geometry (abstraction of the turf call), and its properties
(`feature.properties`, with JS `null` folded to the empty object as the
consumers do via spread/optional access). -/
structure Feature where
  geomType : GeomType
  contains : Rat → Rat → Bool
  properties : Record

/-- The `geometry.type === Polygon || geometry.type === MultiPolygon`
guard. -/
def Feature.polygonal (f : Feature) : Bool :=
  match f.geomType with
  | .polygon => true
  | .multiPolygon => true
  | .other => false

/-- `layer.source.format`. -/
inductive SourceFormat where
  | geojson
  | csv
  | other
deriving DecidableEq, Repr

/-- The slice of a `DatasetLayer` that `getValuesAtPoint` reads:
identity, source format, and `layer.query?.fields` (`none` when the
layer declares no query or no field list). -/
structure Layer where
  id : String
  format : SourceFormat
  queryFields : Option (List String)

/-- Loaded backing data of a layer: a GeoJSON feature collection or the
parsed rows of a CSV file. -/
inductive LayerData where
  | geo (features : List Feature)
  | rows (records : List Record)
  | otherData

/-- The `DatasetManager` state: the manifest layer catalog and the
`loadedData` map.  The `geojsonLayers` map of the source is kept in
sync with `loadedData` by `preloadLayers` (both are written together),
so it is represented by `loadedData` entries of shape `LayerData.geo`. -/
structure DatasetManager where
  layers : List Layer
  loadedData : List (String × LayerData)

/-- `getLayerById(id)`: first manifest layer with the given id. -/
def getLayerById (dm : DatasetManager) (id : String) : Option Layer :=
  dm.layers.find? (fun l => l.id = id)

/-- `this.loadedData.get(layerId)`. -/
def dataOf (dm : DatasetManager) (id : String) : Option LayerData :=
  alGet dm.loadedData id

/-- The vector-layer loop body: walk the features in listed order, run
the point-in-polygon test on every Polygon/MultiPolygon feature, and
stop at the first containing feature, returning its properties. -/
def firstContainingProps : List Feature → Rat → Rat → Option Record
  | [], _, _ => none
  | f :: fs, lat, lon =>
    if f.polygonal && f.contains lat lon then some f.properties
    else firstContainingProps fs lat lon

/-- A cell of a per-layer query result: either a plain value or (for
the `_sample` slot of a CSV summary) a list of records. -/
inductive EntryVal where
  | v (x : Value)
  | recs (rs : List Record)
deriving DecidableEq, Repr

/-- A per-layer result object (`values[layerId]`). -/
abbrev Entry := List (String × EntryVal)

/-- The result mapping of `getValuesAtPoint` (`DatasetValues`). -/
abbrev DatasetValues := List (String × Entry)

/-- Field extraction from a matched feature: with a declared field list
each declared field is copied from the properties (a missing property
reads as `undefined`); with no declared list the whole properties
object is spread into the result. -/
def extractFields (queryFields : Option (List String)) (props : Record) : Entry :=
  match queryFields with
  | some fs => fs.foldl (fun e fld => alSet e fld (.v (getPropertyD props fld))) []
  | none => props.map (fun p => (p.1, EntryVal.v p.2))

/-- `records.map(r => r.year).filter(y => y !== undefined)`: the year
cells of the records, in record order, with absent or `undefined`
years dropped. -/
def yearsOf (recs : List Record) : List Value :=
  recs.filterMap (fun r =>
    match getPropertyD r "year" with
    | .undef => none
    | v => some v)

/-- `new Set(...)` over the year values: deduplication keeping the
first occurrence of each value, in insertion order. -/
def dedupAux : List Value → List Value → List Value
  | _, [] => []
  | seen, x :: xs =>
    if x ∈ seen then dedupAux seen xs else x :: dedupAux (x :: seen) xs

def dedupFirst (l : List Value) : List Value :=
  dedupAux [] l

/-- The numeric cast `(y as number)` used by the sort comparator.  The
year cells of the bundled CSVs are numbers; other value shapes are
given key 0 (the comparator result is only relied on for numbers). -/
def toSortKey : Value → Rat
  | .num q => q
  | _ => 0

/-- Stable descending insertion by sort key, modelling
`years.sort((a, b) => b - a)`. -/
def insertDescending (x : Value) : List Value → List Value
  | [] => [x]
  | y :: ys =>
    if toSortKey y < toSortKey x then x :: y :: ys
    else y :: insertDescending x ys

def sortDescending (l : List Value) : List Value :=
  l.foldr insertDescending []

/-- The group of records whose `year` cell is strictly equal to the
selected year value (`r.year === latestYear`). -/
def latestGroup (recs : List Record) (latest : Value) : List Record :=
  recs.filter (fun r => getProperty r "year" = some latest)

/-- The CSV summary object built for a non-empty tabular layer. -/
def csvSummary (recs : List Record) : Entry :=
  match sortDescending (dedupFirst (yearsOf recs)) with
  | latest :: _ =>
    [("_source", .v (.str "csv_summary")),
     ("_year", .v latest),
     ("_recordCount", .v (.num ((latestGroup recs latest).length : Rat))),
     ("_sample", .recs ((latestGroup recs latest).take 3))]
  | [] =>
    [("_source", .v (.str "csv_summary")),
     ("_recordCount", .v (.num (recs.length : Rat))),
     ("_sample", .recs (recs.take 3))]

/-- The per-layer body of the `getValuesAtPoint` loop, after the
`values[layerId] = {}` initialisation: the GeoJSON branch fills or
replaces the entry from the first containing feature, the CSV branch
replaces it with the latest-year summary, anything else leaves the
empty object. -/
def entryBody (layer : Layer) (data : LayerData) (lat lon : Rat) : Entry :=
  match layer.format, data with
  | .geojson, .geo feats =>
    (match firstContainingProps feats lat lon with
     | some props => extractFields layer.queryFields props
     | none => [])
  | .csv, .rows recs =>
    if recs.length > 0 then csvSummary recs else []
  | _, _ => []

/-- One iteration of the `getValuesAtPoint` loop for a layer id:
`continue` (no entry) when the id is not in the catalog or its backing
data is not loaded, otherwise the computed entry. -/
def entryFor (dm : DatasetManager) (lat lon : Rat) (id : String) : Option Entry :=
  match getLayerById dm id with
  | none => none
  | some layer =>
    match dataOf dm id with
    | none => none
    | some data => some (entryBody layer data lat lon)

/-- One loop iteration of `getValuesAtPoint`, threading the `values`
accumulator. -/
def queryStep (dm : DatasetManager) (lat lon : Rat)
    (vals : DatasetValues) (id : String) : DatasetValues :=
  match entryFor dm lat lon id with
  | none => vals
  | some e => alSet vals id e

/-- `DatasetManager.getValuesAtPoint(lat, lon, activeLayerIds)`. -/
def getValuesAtPoint (dm : DatasetManager) (lat lon : Rat)
    (activeLayerIds : List String) : DatasetValues :=
  activeLayerIds.foldl (queryStep dm lat lon) []

end DSM

namespace DW

/-!
Embedding of `DynamicWorldService` (the current variant): regional
land-cover statistics plus the point-data stubs.
-/

/-- One row of the cached regional Dynamic World CSV
(`DynamicWorldData`): year-stamped class areas for the whole region. -/
structure DynamicWorldData where
  year : Int
  month : String
  water : Rat
  trees : Rat
  grass : Rat
  floodedVegetation : Rat
  crops : Rat
  shrubAndScrub : Rat
  built : Rat
  bare : Rat
  snowAndIce : Rat
deriving DecidableEq, Repr

/-- The shape a point-specific classification would have
(`DynamicWorldPointData`). -/
structure DynamicWorldPointData where
  lat : Rat
  lon : Rat
  timestamp : String
  landCoverClass : String
  confidence : Rat
  probabilities : List (String × Rat)
deriving DecidableEq, Repr

/-- `DynamicWorldService.fetchPointData`: point-specific LULC data
requires the GEE API, which is not integrated; the method always
returns `null` and never synthesizes point data from regional
statistics. -/
def fetchPointData (_lat _lon : Rat) (_date : Option String) :
    Option DynamicWorldPointData :=
  none

/-- `DynamicWorldService.isPointDataAvailable`: currently always
false. -/
def isPointDataAvailable : Bool :=
  false

end DW

namespace Weather

/-!
Embedding of `WeatherService.getWeather`.  The Open-Meteo HTTP fetch is
modelled by a `FetchOutcome` argument; the parsed response payload
(current conditions plus forecast, a pure field-by-field mapping of the
JSON) is carried as the uninterpreted string `payload`.  Times are epoch milliseconds.
-/

/-- A fetched weather report (`WeatherData`): the parsed payload and
its fetch time (`fetchedAt`). -/
structure WeatherData where
  payload : String
  fetchedAt : Nat
deriving DecidableEq, Repr

/-- A cache slot: `{ data, expiry }`. -/
structure CacheEntry where
  data : WeatherData
  expiry : Nat
deriving DecidableEq, Repr

/-- The mutable service state: the online flag maintained by the
window online/offline listeners, and the per-coordinate cache map. -/
structure WeatherState where
  isOnline : Bool
  cache : List (String × CacheEntry)

/-- `this.cacheDuration = 30 * 60 * 1000` (30 minutes). -/
def cacheDuration : Nat := 30 * 60 * 1000

/-- `lat.toFixed(3)`: rounding to 3 decimal places, represented by the
scaled integer (the tie-breaking detail of `toFixed` is immaterial
here). -/
def fix3 (q : Rat) : Int := round (q * 1000)

/-- The cache key: the coordinate rounded to 3 decimal places on each
axis. -/
def cacheKey (lat lon : Rat) : String :=
  toString (fix3 lat) ++ "," ++ toString (fix3 lon)

/-- Outcome of the Open-Meteo fetch: a parsed payload, or any network
or non-ok-response failure. -/
inductive FetchOutcome where
  | ok (payload : String)
  | failed
deriving DecidableEq, Repr

/-- `WeatherService.getWeather(lat, lon)` at time `now` with fetch
behaviour `fetch`.  Returns the result, the updated state, and whether
a network request was performed. -/
def getWeather (st : WeatherState) (lat lon : Rat) (now : Nat)
    (fetch : FetchOutcome) : Option WeatherData × WeatherState × Bool :=
  if ¬ st.isOnline then (none, st, false)
  else
    let key := cacheKey lat lon
    let hit : Option WeatherData :=
      match alGet st.cache key with
      | some cached => if now < cached.expiry then some cached.data else none
      | none => none
    match hit with
    | some d => (some d, st, false)
    | none =>
      match fetch with
      | .ok payload =>
        let wd : WeatherData := { payload := payload, fetchedAt := now }
        (some wd,
         { st with cache := alSet st.cache key { data := wd, expiry := now + cacheDuration } },
         true)
      | .failed => (none, st, true)

end Weather

namespace CS

/-!
Embedding of the `CoreStackService` credential and availability logic.
-/

/-- The hardcoded fallback API key shipped in `CoreStackService`
(`DEFAULT_API_KEY`, marked in the source as a testing key to be moved
to an environment variable). -/
def DEFAULT_API_KEY : String := "x0bXxURa.B9Qgfxd0aKxxJ8GIDHA5FCSIAc52hFgg"

/-- The service state: the `apiKey` field (a JS `string | null`) and
the online flag. -/
structure CoreStackState where
  apiKey : Option String
  isOnline : Bool
deriving DecidableEq, Repr

/-- The constructor assignment
`this.apiKey = localStorage.getItem(..) || DEFAULT_API_KEY`:
`getItem` yields `null` when nothing was stored, and the JS or-else
also replaces an empty stored string by the default key. -/
def initialApiKey (stored : Option String) : Option String :=
  some (match stored with
        | some s => if s ≠ "" then s else DEFAULT_API_KEY
        | none => DEFAULT_API_KEY)

/-- A freshly constructed `CoreStackService` given the stored
credential (if any) and connectivity. -/
def mkCoreStackState (stored : Option String) (online : Bool) : CoreStackState :=
  { apiKey := initialApiKey stored, isOnline := online }

/-- `hasApiKey()`: `!!this.apiKey`. -/
def hasApiKey (st : CoreStackState) : Bool :=
  match st.apiKey with
  | some s => s ≠ ""
  | none => false

/-- `isAvailable()`: online AND key present. -/
def isAvailable (st : CoreStackState) : Bool :=
  st.isOnline && hasApiKey st

end CS

/-- JS truthiness of an optional string (absent, `null` and the empty
string are falsy). -/
def strTruthy : Option String → Bool
  | some s => s ≠ ""
  | none => false

/-- The slice of `AdminDetails` (CoreStack
`get_admin_details_by_latlon` response) consumed by the enrichment
code. -/
structure AdminDetails where
  state_name : Option String
  district_name : Option String
  tehsil_name : Option String
deriving DecidableEq, Repr

/-- CoreStack `get_mwsid_by_latlon` response. -/
structure MwsResult where
  mws_id : Option String
deriving DecidableEq, Repr

/-- One CoreStack KYL indicator. -/
structure KYLIndicator where
  indicator_name : String
  value : Value
deriving DecidableEq, Repr

/-- `admin.state_name` viewed as a JS value (absent field reads as
`undefined`). -/
def ofOptStr : Option String → Value
  | some s => .str s
  | none => .undef

namespace LDS

/-!
Embedding of the current `LocationDataService`: authentic
point-in-polygon administrative resolution, land-cover, watershed and
weather branches, and the `Promise.allSettled` merge of
`enrichLocation`.  Remote-call outcomes at the queried point are
supplied through `Env`; the service state after `initialize()` is
`ServiceState`.
-/

/-- One slot of the `boundaries` map: the fetched GeoJSON features (or
`null`) and the loaded flag. -/
structure BoundaryData where
  geojson : Option (List DSM.Feature)
  loaded : Bool

/-- One row of the local CoreStack blocks CSV. -/
structure BlockRow where
  state : String
  district : String
  block : String
  block_id : Option String

/-- The service state after `initialize()`: the two boundary slots of
the `boundaries` map (it is constructed with exactly the keys
`dakshina_kannada` and `western_ghats`), the local CoreStack blocks
cache, and the dataset manager. -/
structure ServiceState where
  dakshinaKannada : BoundaryData
  westernGhats : BoundaryData
  blocksLoaded : Bool
  blocks : List BlockRow
  dm : DSM.DatasetManager

/-- `this.boundaries.get(boundaryId)`. -/
def boundaryFor (st : ServiceState) : String → Option BoundaryData
  | "dakshina_kannada" => some st.dakshinaKannada
  | "western_ghats" => some st.westernGhats
  | _ => none

/-- Settled outcomes of the remote calls awaited during one
enrichment, plus the adapter-level results that never reject. -/
structure Env where
  hasApiKey : Bool
  adminCall : Except String (Option AdminDetails)
  mwsCall : Except String (Option MwsResult)
  indicatorsCall : Except String (List KYLIndicator)
  weatherResult : Option Weather.WeatherData
  regionalStats : Option DW.DynamicWorldData

/-- `isPointInBoundary(lat, lon, boundaryId)`: `none` models
`{inside: false}`, `some props` models `{inside: true, properties}`
(the properties of the first Polygon/MultiPolygon feature containing
the point, `feature.properties || {}`). -/
def isPointInBoundary (st : ServiceState) (lat lon : Rat)
    (boundaryId : String) : Option Record :=
  match boundaryFor st boundaryId with
  | none => none
  | some b =>
    match b.geojson with
    | none => none
    | some feats =>
      if b.loaded then DSM.firstContainingProps feats lat lon else none

/-- The district normalization: lower-case, collapse every whitespace
run to a single space, trim. -/
def normalizeText (s : String) : String :=
  String.intercalate " "
    ((s.toLower.split (fun c => c.isWhitespace)).filter (fun t => t ≠ ""))

/-- `getLocalBlockData(district)`.  The argument is the dynamic value
read from the boundary feature properties; calling `.toLowerCase()` on
anything that is not a string throws a `TypeError`, which the embedding
surfaces as an `Except.error`. -/
def getLocalBlockData (st : ServiceState) (district : Value) :
    Except String (Option BlockRow) :=
  if st.blocksLoaded then
    match district with
    | .str s =>
      .ok (st.blocks.find? (fun b => normalizeText b.district = normalizeText s))
    | _ => .error "TypeError: district.toLowerCase is not a function"
  else
    .ok none

/-- The `source` tag of an administrative block. -/
inductive AdminSource where
  | boundary_geojson
  | corestack_api
  | corestack_local
deriving DecidableEq, Repr

/-- The `confidence` tag of an administrative block. -/
inductive Confidence where
  | verified
  | approximate
deriving DecidableEq, Repr

/-- An administrative block of the enrichment result.  A field the
source object literal omits is `undefined` here. -/
structure Admin where
  state : Value
  district : Value
  tehsil : Value
  block : Value
  source : AdminSource
  confidence : Confidence
deriving DecidableEq, Repr

/-- The administrative block built from a CoreStack API response. -/
def remoteAdminBlock (a : AdminDetails) : Admin :=
  { state := ofOptStr a.state_name
    district := ofOptStr a.district_name
    tehsil := ofOptStr a.tehsil_name
    block := .undef
    source := .corestack_api
    confidence := .verified }

/-- The administrative block built from the Dakshina Kannada boundary
properties and the optional local block row. -/
def dkAdminBlock (stateV districtV : Value) (localBlock : Option BlockRow) : Admin :=
  { state := jsOr stateV (.str "Karnataka")
    district := jsOr districtV (.str "Dakshina Kannada")
    tehsil := .undef
    block := match localBlock with
             | some b => .str b.block
             | none => .undef
    source := .boundary_geojson
    confidence := .verified }

/-- The administrative block built from a Western Ghats boundary hit. -/
def wgAdminBlock : Admin :=
  { state := .str "Within Western Ghats"
    district := .undef
    tehsil := .undef
    block := .undef
    source := .boundary_geojson
    confidence := .verified }

/-- `getAdminData(lat, lon, isOnline)`: CoreStack API first when online
and credentialed (its failure is caught and falls through), then the
Dakshina Kannada boundary, then the Western Ghats boundary, else no
data.  An uncaught `TypeError` inside the district-block lookup rejects
the branch (`Except.error`). -/
def getAdminData (st : ServiceState) (env : Env) (lat lon : Rat)
    (isOnline : Bool) : Except String (Option Admin) :=
  let remote : Option Admin :=
    if isOnline && env.hasApiKey then
      match env.adminCall with
      | .ok (some a) =>
        if strTruthy a.state_name || strTruthy a.district_name then
          some (remoteAdminBlock a)
        else none
      | _ => none
    else none
  match remote with
  | some a => .ok (some a)
  | none =>
    match isPointInBoundary st lat lon "dakshina_kannada" with
    | some props =>
      let stateV := jsOr (getPropertyD props "ST_NM") (getPropertyD props "state")
      let districtV := jsOr (getPropertyD props "DISTRICT") (getPropertyD props "district")
      match getLocalBlockData st districtV with
      | .ok localBlock => .ok (some (dkAdminBlock stateV districtV localBlock))
      | .error e => .error e
    | none =>
      match isPointInBoundary st lat lon "western_ghats" with
      | some _ => .ok (some wgAdminBlock)
      | none => .ok none

/-- The `source` tag of a watershed block. -/
inductive WatershedSource where
  | corestack_local
  | corestack_api
deriving DecidableEq, Repr

/-- A watershed block of the enrichment result. -/
structure Watershed where
  mwsId : String
  indicators : List (String × Value)
  source : WatershedSource
deriving DecidableEq, Repr

/-- `getWatershedData(lat, lon, isOnline)`: online and credentialed
only; every remote failure is caught and yields `null`, so this branch
never rejects. -/
def getWatershedData (env : Env) (isOnline : Bool) : Option Watershed :=
  if isOnline && env.hasApiKey then
    match env.mwsCall with
    | .ok (some m) =>
      match m.mws_id with
      | some s =>
        if s ≠ "" then
          let inds := match env.indicatorsCall with
                      | .ok l => l
                      | .error _ => []
          some { mwsId := s
                 indicators := inds.foldl (fun acc i => alSet acc i.indicator_name i.value) []
                 source := .corestack_api }
        else none
      | none => none
    | _ => none
  else none

/-- The `source` tag of a land-cover block. -/
inductive LandCoverSource where
  | dynamicworld_regional
  | dynamicworld_point
  | unavailable
deriving DecidableEq, Repr

/-- The regional summary inside a land-cover block. -/
structure RegionalSummary where
  dominantClass : String
  trees : Rat
  crops : Rat
  built : Rat
  water : Rat
  shrubAndScrub : Rat
  grass : Rat
  bare : Rat
  year : Int
deriving DecidableEq, Repr

/-- A land-cover block of the enrichment result. -/
structure LandCover where
  regionalSummary : Option RegionalSummary
  pointDataAvailable : Bool
  source : LandCoverSource
  note : Option String
deriving DecidableEq, Repr

/-- The per-class percentage map built from the regional statistics
(in the insertion order of the source object literal; Snow and Ice is
part of the total but not of the map). -/
def lcClasses (s : DW.DynamicWorldData) (total : Rat) : List (String × Rat) :=
  [("Water", s.water / total * 100),
   ("Trees", s.trees / total * 100),
   ("Grass", s.grass / total * 100),
   ("Flooded Vegetation", s.floodedVegetation / total * 100),
   ("Crops", s.crops / total * 100),
   ("Shrub and Scrub", s.shrubAndScrub / total * 100),
   ("Built", s.built / total * 100),
   ("Bare", s.bare / total * 100)]

/-- `classes[name]` reads back a computed percentage. -/
def pctOf (classes : List (String × Rat)) (k : String) : Rat :=
  (alGet classes k).getD 0

/-- The dominant-class scan: start from `Trees` at 0 and replace on a
strictly greater percentage, in map order. -/
def dominantOf (classes : List (String × Rat)) : String × Rat :=
  classes.foldl (fun acc c => if c.2 > acc.2 then c else acc) ("Trees", 0)

/-- The fallback land-cover block when no regional statistics are
loaded (or the area total is zero). -/
def unavailableLandCover : LandCover :=
  { regionalSummary := none
    pointDataAvailable := false
    source := .unavailable
    note := some "No LULC data available for this location" }

/-- `getLandCoverData(lat, lon, isOnline)`: always the regional
Dynamic World summary (the coordinate and online flag are ignored by
the source, its parameters are underscore-prefixed); never a
point-specific classification; never rejects. -/
def getLandCoverData (env : Env) : Option LandCover :=
  match env.regionalStats with
  | some s =>
    let total := s.water + s.trees + s.grass + s.floodedVegetation + s.crops +
                 s.shrubAndScrub + s.built + s.bare + s.snowAndIce
    if total > 0 then
      let classes := lcClasses s total
      some { regionalSummary := some
               { dominantClass := (dominantOf classes).1
                 trees := pctOf classes "Trees"
                 crops := pctOf classes "Crops"
                 built := pctOf classes "Built"
                 water := pctOf classes "Water"
                 shrubAndScrub := pctOf classes "Shrub and Scrub"
                 grass := pctOf classes "Grass"
                 bare := pctOf classes "Bare"
                 year := s.year }
             pointDataAvailable := false
             source := .dynamicworld_regional
             note := some "Regional average for Western Ghats. Point-specific LULC requires Google Earth Engine API integration." }
    else some unavailableLandCover
  | none => some unavailableLandCover

/-- `getLocalData(lat, lon)`: query every catalog layer. -/
def getLocalData (st : ServiceState) (lat lon : Rat) : DSM.DatasetValues :=
  DSM.getValuesAtPoint st.dm lat lon (st.dm.layers.map (fun l => l.id))

/-- A settled promise, as delivered by `Promise.allSettled`. -/
inductive Settled (α : Type) where
  | fulfilled (v : α)
  | rejected (reason : String)

/-- An `Except` result viewed as a settled promise. -/
def toSettled : Except String α → Settled α
  | .ok v => .fulfilled v
  | .error e => .rejected e

/-- The `LocationEnrichment` contract object. -/
structure LocationEnrichment where
  lat : Rat
  lon : Rat
  timestamp : String
  isOnline : Bool
  admin : Option Admin
  landCover : Option LandCover
  watershed : Option Watershed
  weather : Option Weather.WeatherData
  localData : Option DSM.DatasetValues
  errors : List String
  warnings : List String

/-- The fresh result object built at the top of `enrichLocation`. -/
def baseEnrichment (lat lon : Rat) (isOnline : Bool) (timestamp : String) :
    LocationEnrichment :=
  { lat := lat, lon := lon, timestamp := timestamp, isOnline := isOnline
    admin := none, landCover := none, watershed := none, weather := none
    localData := none, errors := [], warnings := [] }

/-- The merge of the five settled branches into the result object: a
fulfilled non-null value fills its own slot; a rejected branch appends
its diagnostic to `errors` (the weather slot has no rejected case in
the source). -/
def settleMerge (base : LocationEnrichment)
    (localData : Settled (Option DSM.DatasetValues))
    (adminData : Settled (Option Admin))
    (landCoverData : Settled (Option LandCover))
    (watershedData : Settled (Option Watershed))
    (weatherData : Settled (Option Weather.WeatherData)) :
    LocationEnrichment :=
  let r1 := match localData with
    | .fulfilled (some v) => { base with localData := some v }
    | .fulfilled none => base
    | .rejected reason => { base with errors := base.errors ++ ["Local data: " ++ reason] }
  let r2 := match adminData with
    | .fulfilled (some v) => { r1 with admin := some v }
    | .fulfilled none => r1
    | .rejected reason => { r1 with errors := r1.errors ++ ["Admin data: " ++ reason] }
  let r3 := match landCoverData with
    | .fulfilled (some v) => { r2 with landCover := some v }
    | .fulfilled none => r2
    | .rejected reason => { r2 with errors := r2.errors ++ ["Land cover: " ++ reason] }
  let r4 := match watershedData with
    | .fulfilled (some v) => { r3 with watershed := some v }
    | .fulfilled none => r3
    | .rejected reason => { r3 with errors := r3.errors ++ ["Watershed: " ++ reason] }
  match weatherData with
  | .fulfilled (some v) => { r4 with weather := some v }
  | _ => r4

/-- `enrichLocation(lat, lon, isOnline)`: fan out the five branches,
await them all with `Promise.allSettled`, and merge.  The local,
land-cover and watershed branches never reject; the admin branch
rejects exactly when `getAdminData` throws; the weather branch is the
adapter result when online and a resolved `null` otherwise. -/
def enrichLocation (st : ServiceState) (env : Env) (lat lon : Rat)
    (isOnline : Bool) (timestamp : String) : LocationEnrichment :=
  settleMerge (baseEnrichment lat lon isOnline timestamp)
    (.fulfilled (some (getLocalData st lat lon)))
    (toSettled (getAdminData st env lat lon isOnline))
    (.fulfilled (getLandCoverData env))
    (.fulfilled (getWatershedData env isOnline))
    (.fulfilled (if isOnline then env.weatherResult else none))

end LDS

namespace LegacyLDS

/-!
Embedding of `getAdminData` of the older `LocationDataService` kept in
the repository (the variant whose header reads "Prioritizes local data
and falls back to API when needed"): after the CoreStack attempt it
derives the administrative identity from hard-coded approximate
bounding boxes instead of polygon containment.
-/

/-- The admin block shape of the legacy service (`source` is the plain
string union `local | corestack`). -/
structure Admin where
  state : Option String
  district : Option String
  tehsil : Option String
  source : String
deriving DecidableEq, Repr

/-- The legacy `getAdminData(lat, lon, isOnline)`: CoreStack first,
then the Western Ghats bounding box `8..21 x 73..78`, refined by the
Dakshina Kannada bounding box `12.5..13.5 x 74.5..75.8`. -/
def getAdminData (hasApiKey : Bool)
    (adminCall : Except String (Option AdminDetails))
    (lat lon : Rat) (isOnline : Bool) : Option Admin :=
  let remote : Option Admin :=
    if isOnline && hasApiKey then
      match adminCall with
      | .ok (some a) =>
        if strTruthy a.state_name || strTruthy a.district_name then
          some { state := a.state_name
                 district := a.district_name
                 tehsil := a.tehsil_name
                 source := "corestack" }
        else none
      | _ => none
    else none
  match remote with
  | some a => some a
  | none =>
    if 8 ≤ lat ∧ lat ≤ 21 ∧ 73 ≤ lon ∧ lon ≤ 78 then
      if (12.5 : Rat) ≤ lat ∧ lat ≤ (13.5 : Rat) ∧ (74.5 : Rat) ≤ lon ∧ lon ≤ (75.8 : Rat) then
        some { state := some "Karnataka"
               district := some "Dakshina Kannada (estimated)"
               tehsil := none
               source := "local" }
      else
        some { state := some "Western Ghats Region"
               district := none
               tehsil := none
               source := "local" }
    else none

end LegacyLDS

/-! ### Helper lemmas -/

theorem alGet_alSet_self {α : Type} (l : List (String × α)) (k : String) (v : α) :
    alGet (alSet l k v) k = some v := by
  induction l with
  | nil => simp [alGet, alSet, List.find?]
  | cons hd tl ih =>
    obtain ⟨k0, v0⟩ := hd
    by_cases h : k0 = k
    · simp [alSet, h, alGet, List.find?]
    · simp [alSet, h, alGet, List.find?]
      simp [alGet] at ih
      simpa [h] using ih

theorem alGet_alSet_ne {α : Type} (l : List (String × α)) (k k' : String) (v : α)
    (h : k ≠ k') : alGet (alSet l k v) k' = alGet l k' := by
  induction l with
  | nil => simp [alGet, alSet, List.find?, h]
  | cons hd tl ih =>
    obtain ⟨k0, v0⟩ := hd
    by_cases h0 : k0 = k
    · subst h0
      simp [alSet, alGet, List.find?, h]
    · by_cases h1 : k0 = k'
      · subst h1
        simp [alSet, h0, alGet, List.find?]
      · simp [alSet, h0, alGet, List.find?, h1]
        simp [alGet] at ih
        simpa [h1] using ih

theorem mem_alSet {α : Type} (l : List (String × α)) (k : String) (v : α)
    (p : String × α) (hp : p ∈ alSet l k v) :
    p = (k, v) ∨ p ∈ l := by
  induction l with
  | nil => simpa [alSet] using hp
  | cons hd tl ih =>
    obtain ⟨k0, v0⟩ := hd
    by_cases h : k0 = k
    · subst h
      simp [alSet] at hp
      rcases hp with h1 | h1
      · exact Or.inl h1
      · exact Or.inr (List.mem_cons_of_mem _ h1)
    · simp [alSet, h] at hp
      rcases hp with h1 | h1
      · exact Or.inr (by simp [h1])
      · rcases ih h1 with h2 | h2
        · exact Or.inl h2
        · exact Or.inr (List.mem_cons_of_mem _ h2)

theorem DSM.alGet_foldl_queryStep (dm : DSM.DatasetManager) (lat lon : Rat)
    (id : String) (ids : List String) :
    ∀ acc : DSM.DatasetValues,
      alGet (ids.foldl (DSM.queryStep dm lat lon) acc) id =
        match DSM.entryFor dm lat lon id with
        | some e => if id ∈ ids then some e else alGet acc id
        | none => alGet acc id := by
  induction ids with
  | nil =>
    intro acc
    cases h : DSM.entryFor dm lat lon id <;> simp [h]
  | cons k rest ih =>
    intro acc
    simp only [List.foldl_cons]
    rw [ih]
    by_cases hk : k = id
    · subst hk
      cases h : DSM.entryFor dm lat lon k with
      | none => simp [h, DSM.queryStep]
      | some e =>
        by_cases hm : k ∈ rest
        · simp [h, hm]
        · simp [h, hm, DSM.queryStep, alGet_alSet_self]
    · cases h : DSM.entryFor dm lat lon id with
      | none =>
        cases hk2 : DSM.entryFor dm lat lon k with
        | none => simp [h, DSM.queryStep, hk2]
        | some e2 =>
          simp [h, DSM.queryStep, hk2, alGet_alSet_ne _ _ _ _ hk]
      | some e =>
        have hk' : id ≠ k := fun hh => hk hh.symm
        by_cases hm : id ∈ rest
        · simp [h, hm]
        · cases hk2 : DSM.entryFor dm lat lon k with
          | none =>
            simp [h, hm, DSM.queryStep, hk2, hk']
          | some e2 =>
            simp [h, hm, DSM.queryStep, hk2, hk',
              alGet_alSet_ne _ _ _ _ hk]

/-- Lookup characterization of the query result: an active id yields
exactly its per-layer entry (or nothing if it was skipped); an id not
in the active set yields nothing. -/
theorem DSM.alGet_getValuesAtPoint (dm : DSM.DatasetManager) (lat lon : Rat)
    (id : String) (ids : List String) :
    alGet (DSM.getValuesAtPoint dm lat lon ids) id =
      if id ∈ ids then DSM.entryFor dm lat lon id else none := by
  unfold DSM.getValuesAtPoint
  rw [DSM.alGet_foldl_queryStep]
  cases h : DSM.entryFor dm lat lon id with
  | none => simp [alGet]
  | some e => simp [alGet]

theorem DSM.mem_insertDescending (x v : Value) (l : List Value) :
    v ∈ DSM.insertDescending x l ↔ v = x ∨ v ∈ l := by
  induction l with
  | nil => simp [DSM.insertDescending]
  | cons y ys ih =>
    by_cases h : DSM.toSortKey y < DSM.toSortKey x
    · simp [DSM.insertDescending, h]
    · simp [DSM.insertDescending, h, ih]
      tauto

theorem DSM.insertDescending_headMax (x : Value) (l : List Value)
    (hl : ∀ h t, l = h :: t → ∀ v ∈ l, DSM.toSortKey v ≤ DSM.toSortKey h) :
    ∀ h t, DSM.insertDescending x l = h :: t →
      ∀ v ∈ DSM.insertDescending x l, DSM.toSortKey v ≤ DSM.toSortKey h := by
  cases l with
  | nil =>
    intro h t hht v hv
    simp [DSM.insertDescending] at hht hv
    simp [hv, hht.1]
  | cons y ys =>
    by_cases hcmp : DSM.toSortKey y < DSM.toSortKey x
    · intro h t hht v hv
      simp [DSM.insertDescending, hcmp] at hht hv
      rcases hht with ⟨rfl, rfl⟩
      rcases hv with rfl | rfl | hv
      · exact le_refl _
      · exact le_of_lt hcmp
      · exact le_trans (hl y ys rfl v (by simp [hv])) (le_of_lt hcmp)
    · intro h t hht v hv
      simp [DSM.insertDescending, hcmp] at hht hv
      rcases hht with ⟨rfl, rfl⟩
      rcases hv with rfl | hv
      · exact le_refl _
      · rcases (DSM.mem_insertDescending x v ys).1 hv with rfl | hv2
        · exact le_of_not_lt hcmp
        · exact hl y ys rfl v (by simp [hv2])

theorem DSM.mem_sortDescending (l : List Value) (v : Value) :
    v ∈ DSM.sortDescending l ↔ v ∈ l := by
  induction l with
  | nil => simp [DSM.sortDescending]
  | cons x xs ih =>
    show v ∈ DSM.insertDescending x (DSM.sortDescending xs) ↔ _
    rw [DSM.mem_insertDescending, ih]
    simp

theorem DSM.sortDescending_headMax (l : List Value) :
    ∀ h t, DSM.sortDescending l = h :: t →
      ∀ v ∈ DSM.sortDescending l, DSM.toSortKey v ≤ DSM.toSortKey h := by
  induction l with
  | nil => intro h t hht; simp [DSM.sortDescending] at hht
  | cons x xs ih =>
    show ∀ h t, DSM.insertDescending x (DSM.sortDescending xs) = h :: t → _
    exact DSM.insertDescending_headMax x (DSM.sortDescending xs) ih

theorem DSM.sortDescending_ne_nil (l : List Value) (hl : l ≠ []) :
    DSM.sortDescending l ≠ [] := by
  cases l with
  | nil => exact absurd rfl hl
  | cons x xs =>
    intro hcon
    have : x ∈ DSM.sortDescending (x :: xs) :=
      (DSM.mem_sortDescending _ x).2 (by simp)
    rw [hcon] at this
    simp at this

theorem DSM.mem_dedupAux (v : Value) (l : List Value) :
    ∀ seen : List Value, v ∈ DSM.dedupAux seen l ↔ v ∈ l ∧ v ∉ seen := by
  induction l with
  | nil => intro seen; simp [DSM.dedupAux]
  | cons x xs ih =>
    intro seen
    by_cases hx : x ∈ seen
    · rw [DSM.dedupAux, if_pos hx, ih]
      constructor
      · rintro ⟨hv, hns⟩
        exact ⟨List.mem_cons_of_mem _ hv, hns⟩
      · rintro ⟨hv, hns⟩
        rcases List.mem_cons.1 hv with rfl | hv2
        · exact absurd hx hns
        · exact ⟨hv2, hns⟩
    · rw [DSM.dedupAux, if_neg hx]
      constructor
      · intro hv
        rcases List.mem_cons.1 hv with rfl | hv2
        · exact ⟨List.mem_cons_self _ _, hx⟩
        · have := (ih (x :: seen)).1 hv2
          refine ⟨List.mem_cons_of_mem _ this.1, ?_⟩
          intro hc
          exact this.2 (List.mem_cons_of_mem _ hc)
      · rintro ⟨hv, hns⟩
        rcases List.mem_cons.1 hv with rfl | hv2
        · exact List.mem_cons_self _ _
        · by_cases hvx : v = x
          · subst hvx; exact List.mem_cons_self _ _
          · refine List.mem_cons_of_mem _ ((ih (x :: seen)).2 ⟨hv2, ?_⟩)
            intro hc
            rcases List.mem_cons.1 hc with h1 | h1
            · exact hvx h1
            · exact hns h1

theorem DSM.mem_dedupFirst (l : List Value) (v : Value) :
    v ∈ DSM.dedupFirst l ↔ v ∈ l := by
  rw [DSM.dedupFirst, DSM.mem_dedupAux]
  simp

theorem DSM.firstContainingProps_eq_none (feats : List DSM.Feature)
    (lat lon : Rat)
    (h : ∀ f ∈ feats, ¬(f.polygonal = true ∧ f.contains lat lon = true)) :
    DSM.firstContainingProps feats lat lon = none := by
  induction feats with
  | nil => rfl
  | cons f fs ih =>
    have hf := h f (List.mem_cons_self _ _)
    have hcond : ¬(f.polygonal && f.contains lat lon) = true := by
      intro hc
      rcases Bool.and_eq_true_iff.1 hc with ⟨h1, h2⟩
      exact hf ⟨h1, h2⟩
    rw [DSM.firstContainingProps, if_neg hcond]
    exact ih (fun g hg => h g (List.mem_cons_of_mem _ hg))

theorem DSM.firstContainingProps_some_mem (feats : List DSM.Feature)
    (lat lon : Rat) (props : Record)
    (h : DSM.firstContainingProps feats lat lon = some props) :
    ∃ f ∈ feats, f.polygonal = true ∧ f.contains lat lon = true ∧
      props = f.properties := by
  induction feats with
  | nil => simp [DSM.firstContainingProps] at h
  | cons f fs ih =>
    rw [DSM.firstContainingProps] at h
    by_cases hc : (f.polygonal && f.contains lat lon) = true
    · rw [if_pos hc] at h
      rcases Bool.and_eq_true_iff.1 hc with ⟨h1, h2⟩
      exact ⟨f, List.mem_cons_self _ _, h1, h2, (Option.some.inj h).symm⟩
    · rw [if_neg hc] at h
      rcases ih h with ⟨g, hg, hgp⟩
      exact ⟨g, List.mem_cons_of_mem _ hg, hgp⟩

theorem DSM.firstContainingProps_eq_some (feats : List DSM.Feature)
    (lat lon : Rat) :
    ∀ (i : Nat) (f : DSM.Feature),
      feats.get? i = some f →
      f.polygonal = true → f.contains lat lon = true →
      (∀ j, j < i → ∀ g, feats.get? j = some g →
        ¬(g.polygonal = true ∧ g.contains lat lon = true)) →
      DSM.firstContainingProps feats lat lon = some f.properties := by
  induction feats with
  | nil => intro i f hi; simp at hi
  | cons g gs ih =>
    intro i f hi hp hc hbefore
    cases i with
    | zero =>
      simp at hi
      subst hi
      rw [DSM.firstContainingProps, if_pos (by simp [hp, hc])]
    | succ j =>
      have hg := hbefore 0 (Nat.succ_pos j) g (by simp)
      have hcond : ¬(g.polygonal && g.contains lat lon) = true := by
        intro hcc
        rcases Bool.and_eq_true_iff.1 hcc with ⟨h1, h2⟩
        exact hg ⟨h1, h2⟩
      rw [DSM.firstContainingProps, if_neg hcond]
      refine ih j f (by simpa using hi) hp hc ?_
      intro j2 hj2 g2 hDSMg2
      exact hbefore (j2 + 1) (Nat.succ_lt_succ hj2) g2 (by simpa using hDSMg2)

theorem DSM.alGet_extract_foldl (props : Record) (fs : List String) :
    ∀ (acc : DSM.Entry) (fld : String),
      alGet (fs.foldl (fun e f => alSet e f (.v (getPropertyD props f))) acc) fld =
        if fld ∈ fs then some (.v (getPropertyD props fld)) else alGet acc fld := by
  induction fs with
  | nil => intro acc fld; simp
  | cons f0 rest ih =>
    intro acc fld
    simp only [List.foldl_cons]
    rw [ih]
    by_cases hm : fld ∈ rest
    · simp [hm]
    · by_cases hf : fld = f0
      · subst hf
        simp [hm, alGet_alSet_self]
      · have hf' : f0 ≠ fld := fun hh => hf hh.symm
        simp [hm, hf, alGet_alSet_ne _ _ _ _ hf']

theorem DSM.mem_extract_foldl (props : Record) (fs : List String) :
    ∀ (acc : DSM.Entry) (p : String × DSM.EntryVal),
      p ∈ fs.foldl (fun e f => alSet e f (.v (getPropertyD props f))) acc →
      p.1 ∈ fs ∨ p ∈ acc := by
  induction fs with
  | nil => intro acc p hp; simp at hp; exact Or.inr hp
  | cons f0 rest ih =>
    intro acc p hp
    simp only [List.foldl_cons] at hp
    rcases ih _ p hp with h1 | h1
    · exact Or.inl (List.mem_cons_of_mem _ h1)
    · rcases mem_alSet _ _ _ _ h1 with h2 | h2
      · left
        rw [h2]
        exact List.mem_cons_self _ _
      · exact Or.inr h2

theorem DSM.alGet_extractFields_mem (fs : List String) (props : Record)
    (fld : String) (h : fld ∈ fs) :
    alGet (DSM.extractFields (some fs) props) fld =
      some (.v (getPropertyD props fld)) := by
  rw [DSM.extractFields, DSM.alGet_extract_foldl, if_pos h]

theorem DSM.extractFields_keys (fs : List String) (props : Record)
    (k : String) (v : DSM.EntryVal)
    (h : (k, v) ∈ DSM.extractFields (some fs) props) : k ∈ fs := by
  rcases DSM.mem_extract_foldl props fs [] (k, v) h with h1 | h1
  · exact h1
  · simp at h1

theorem LDS.settleMerge_slots (base : LDS.LocationEnrichment)
    (o1 : LDS.Settled (Option DSM.DatasetValues))
    (o2 : LDS.Settled (Option LDS.Admin))
    (o3 : LDS.Settled (Option LDS.LandCover))
    (o4 : LDS.Settled (Option LDS.Watershed))
    (o5 : LDS.Settled (Option Weather.WeatherData)) :
    (LDS.settleMerge base o1 o2 o3 o4 o5).localData =
      (match o1 with | .fulfilled (some v) => some v | _ => base.localData) ∧
    (LDS.settleMerge base o1 o2 o3 o4 o5).admin =
      (match o2 with | .fulfilled (some v) => some v | _ => base.admin) ∧
    (LDS.settleMerge base o1 o2 o3 o4 o5).landCover =
      (match o3 with | .fulfilled (some v) => some v | _ => base.landCover) ∧
    (LDS.settleMerge base o1 o2 o3 o4 o5).watershed =
      (match o4 with | .fulfilled (some v) => some v | _ => base.watershed) ∧
    (LDS.settleMerge base o1 o2 o3 o4 o5).weather =
      (match o5 with | .fulfilled (some v) => some v | _ => base.weather) ∧
    (LDS.settleMerge base o1 o2 o3 o4 o5).warnings = base.warnings ∧
    (LDS.settleMerge base o1 o2 o3 o4 o5).lat = base.lat ∧
    (LDS.settleMerge base o1 o2 o3 o4 o5).lon = base.lon ∧
    (LDS.settleMerge base o1 o2 o3 o4 o5).timestamp = base.timestamp ∧
    (LDS.settleMerge base o1 o2 o3 o4 o5).isOnline = base.isOnline := by
  rcases o1 with ⟨_ | x1⟩ | r1 <;> rcases o2 with ⟨_ | x2⟩ | r2 <;>
    rcases o3 with ⟨_ | x3⟩ | r3 <;> rcases o4 with ⟨_ | x4⟩ | r4 <;>
    rcases o5 with ⟨_ | x5⟩ | r5 <;>
    simp [LDS.settleMerge]

theorem LDS.settleMerge_errors (base : LDS.LocationEnrichment)
    (o1 : LDS.Settled (Option DSM.DatasetValues))
    (o2 : LDS.Settled (Option LDS.Admin))
    (o3 : LDS.Settled (Option LDS.LandCover))
    (o4 : LDS.Settled (Option LDS.Watershed))
    (o5 : LDS.Settled (Option Weather.WeatherData)) :
    (LDS.settleMerge base o1 o2 o3 o4 o5).errors =
      base.errors ++
      (match o1 with | .rejected r => ["Local data: " ++ r] | _ => []) ++
      (match o2 with | .rejected r => ["Admin data: " ++ r] | _ => []) ++
      (match o3 with | .rejected r => ["Land cover: " ++ r] | _ => []) ++
      (match o4 with | .rejected r => ["Watershed: " ++ r] | _ => []) := by
  rcases o1 with ⟨_ | x1⟩ | r1 <;> rcases o2 with ⟨_ | x2⟩ | r2 <;>
    rcases o3 with ⟨_ | x3⟩ | r3 <;> rcases o4 with ⟨_ | x4⟩ | r4 <;>
    rcases o5 with ⟨_ | x5⟩ | r5 <;>
    simp [LDS.settleMerge]

/-! ### Claim theorems -/

/-- C9: for every input coordinate and date the land-cover point lookup
`fetchPointData` returns null and `isPointDataAvailable()` is false,
and every land-cover block produced by `getLandCoverData` is a
region-wide block flagged `pointDataAvailable = false` — no code path
produces a point-specific land-cover classification. -/
theorem claim_C9_no_point_landcover :
    (∀ (lat lon : Rat) (date : Option String),
      DW.fetchPointData lat lon date = none) ∧
    DW.isPointDataAvailable = false ∧
    (∀ env : LDS.Env, ∃ lc : LDS.LandCover,
      LDS.getLandCoverData env = some lc ∧
      lc.pointDataAvailable = false ∧ lc.source ≠ .dynamicworld_point) := by
  refine ⟨fun _ _ _ => rfl, rfl, fun env => ?_⟩
  rw [LDS.getLandCoverData]
  cases env.regionalStats with
  | none => exact ⟨_, rfl, rfl, by simp [LDS.unavailableLandCover]⟩
  | some s =>
    dsimp only
    split
    · exact ⟨_, rfl, rfl, by simp⟩
    · exact ⟨_, rfl, rfl, by simp [LDS.unavailableLandCover]⟩

/-- C8: evaluation of the availability logic at a fresh client state.
The claim says that with no credential configured by the user,
`isAvailable()` is false even when online; the code instead falls back
to the hardcoded non-empty `DEFAULT_API_KEY`, so `hasApiKey()` is true
in every constructible state and `isAvailable()` is true whenever
online. -/
theorem claim_C8_default_key_eval :
    CS.isAvailable (CS.mkCoreStackState none true) = true ∧
    CS.DEFAULT_API_KEY ≠ "" ∧
    (∀ (stored : Option String) (online : Bool),
      CS.hasApiKey (CS.mkCoreStackState stored online) = true) ∧
    (∀ stored : Option String,
      CS.isAvailable (CS.mkCoreStackState stored true) = true) := by
  have hkey : ∀ stored : Option String,
      ∃ s : String, s ≠ "" ∧ (CS.mkCoreStackState stored true).apiKey = some s := by
    intro stored
    cases stored with
    | none => exact ⟨CS.DEFAULT_API_KEY, by decide, rfl⟩
    | some s =>
      by_cases hs : s = ""
      · exact ⟨CS.DEFAULT_API_KEY, by decide,
          by simp [CS.mkCoreStackState, CS.initialApiKey, hs]⟩
      · exact ⟨s, hs, by simp [CS.mkCoreStackState, CS.initialApiKey, hs]⟩
  have hhas : ∀ (stored : Option String) (online : Bool),
      CS.hasApiKey (CS.mkCoreStackState stored online) = true := by
    intro stored online
    obtain ⟨s, hs, happ⟩ := hkey stored
    have : (CS.mkCoreStackState stored online).apiKey = some s := by
      simpa [CS.mkCoreStackState] using happ
    simp [CS.hasApiKey, this, hs]
  refine ⟨?_, by decide, hhas, ?_⟩
  · simp only [CS.isAvailable]
    rw [hhas none true]
    simp [CS.mkCoreStackState]
  · intro stored
    simp only [CS.isAvailable]
    rw [hhas stored true]
    simp [CS.mkCoreStackState]

/-- C7: weather caching and fail-to-null.  (1) Offline queries return
null without a network request.  (2) With no fresh cache slot, a failed
fetch returns null (never a stale-beyond-TTL answer).  (3) A first
query that fetches successfully caches its payload under the
3-decimal-rounded coordinate, and any second query at a coordinate with
the same rounding, within the 30-minute TTL, performs no network
request and returns the first payload unchanged. -/
theorem claim_C7_weather_cache :
    (∀ (st : Weather.WeatherState) (lat lon : Rat) (now : Nat)
        (fetch : Weather.FetchOutcome),
      st.isOnline = false →
      Weather.getWeather st lat lon now fetch = (none, st, false)) ∧
    (∀ (st : Weather.WeatherState) (lat lon : Rat) (now : Nat),
      st.isOnline = true →
      (∀ c, alGet st.cache (Weather.cacheKey lat lon) = some c → c.expiry ≤ now) →
      Weather.getWeather st lat lon now .failed = (none, st, true)) ∧
    (∀ (st : Weather.WeatherState) (lat lon : Rat) (now : Nat) (payload : String),
      st.isOnline = true →
      (∀ c, alGet st.cache (Weather.cacheKey lat lon) = some c → c.expiry ≤ now) →
      ∃ (wd : Weather.WeatherData) (st2 : Weather.WeatherState),
        Weather.getWeather st lat lon now (.ok payload) = (some wd, st2, true) ∧
        wd.payload = payload ∧
        ∀ (lat2 lon2 : Rat) (now2 : Nat) (fetch2 : Weather.FetchOutcome),
          Weather.fix3 lat2 = Weather.fix3 lat →
          Weather.fix3 lon2 = Weather.fix3 lon →
          now2 < now + Weather.cacheDuration →
          Weather.getWeather st2 lat2 lon2 now2 fetch2 = (some wd, st2, false)) := by
  have hmiss : ∀ (st : Weather.WeatherState) (lat lon : Rat) (now : Nat),
      (∀ c, alGet st.cache (Weather.cacheKey lat lon) = some c → c.expiry ≤ now) →
      (match alGet st.cache (Weather.cacheKey lat lon) with
       | some cached => if now < cached.expiry then some cached.data else none
       | none => none) = (none : Option Weather.WeatherData) := by
    intro st lat lon now hstale
    cases hc : alGet st.cache (Weather.cacheKey lat lon) with
    | none => rfl
    | some cached =>
      have := hstale cached hc
      simp [Nat.not_lt.2 this]
  refine ⟨?_, ?_, ?_⟩
  · intro st lat lon now fetch hoff
    simp [Weather.getWeather, hoff]
  · intro st lat lon now hon hstale
    simp only [Weather.getWeather, hon, Bool.not_true]
    rw [hmiss st lat lon now hstale]
    simp
  · intro st lat lon now payload hon hstale
    refine ⟨⟨payload, now⟩,
      ⟨st.isOnline, alSet st.cache (Weather.cacheKey lat lon)
        ⟨⟨payload, now⟩, now + Weather.cacheDuration⟩⟩, ?_, rfl, ?_⟩
    · simp only [Weather.getWeather, hon, Bool.not_true]
      rw [hmiss st lat lon now hstale]
      simp
    · intro lat2 lon2 now2 fetch2 hlat hlon hfresh
      have hkey : Weather.cacheKey lat2 lon2 = Weather.cacheKey lat lon := by
        rw [Weather.cacheKey, Weather.cacheKey, hlat, hlon]
      simp only [Weather.getWeather, hon, Bool.not_true]
      rw [hkey, alGet_alSet_self]
      simp [hfresh]

/-- C10: an active-set layer id that is absent from the catalog or
whose backing data is not loaded contributes no entry to the result
mapping, while an active vector layer with loaded data none of whose
features contain the query point still contributes an entry mapped to
the empty object. -/
theorem claim_C10_missing_vs_empty (dm : DSM.DatasetManager) (lat lon : Rat)
    (ids : List String) (id : String) :
    ((DSM.getLayerById dm id = none ∨ DSM.dataOf dm id = none) →
      alGet (DSM.getValuesAtPoint dm lat lon ids) id = none) ∧
    (∀ (layer : DSM.Layer) (feats : List DSM.Feature),
      DSM.getLayerById dm id = some layer →
      layer.format = .geojson →
      DSM.dataOf dm id = some (.geo feats) →
      id ∈ ids →
      (∀ f ∈ feats, ¬(f.polygonal = true ∧ f.contains lat lon = true)) →
      alGet (DSM.getValuesAtPoint dm lat lon ids) id = some []) := by
  constructor
  · intro h
    rw [DSM.alGet_getValuesAtPoint]
    have hnone : DSM.entryFor dm lat lon id = none := by
      rcases h with h | h
      · simp [DSM.entryFor, h]
      · cases hL : DSM.getLayerById dm id with
        | none => simp [DSM.entryFor, hL]
        | some layer => simp [DSM.entryFor, hL, h]
    simp [hnone]
  · intro layer feats hL hF hD hm hnone
    rw [DSM.alGet_getValuesAtPoint, if_pos hm]
    simp [DSM.entryFor, hL, hD, DSM.entryBody, hF,
      DSM.firstContainingProps_eq_none feats lat lon hnone]

/-- C6: for a vector layer, the point is tested against the layer
features in listed order and the first containing Polygon/MultiPolygon
feature wins; with a declared field list only those fields are
extracted (each read from the matched feature properties), and with no
declared list the result carries all properties of the matched
feature. -/
theorem claim_C6_vector_first_match (dm : DSM.DatasetManager) (lat lon : Rat)
    (ids : List String) (id : String) (layer : DSM.Layer)
    (feats : List DSM.Feature) (i : Nat) (f : DSM.Feature)
    (hL : DSM.getLayerById dm id = some layer)
    (hF : layer.format = .geojson)
    (hD : DSM.dataOf dm id = some (.geo feats))
    (hm : id ∈ ids)
    (hi : feats.get? i = some f)
    (hp : f.polygonal = true)
    (hc : f.contains lat lon = true)
    (hbefore : ∀ j, j < i → ∀ g, feats.get? j = some g →
      ¬(g.polygonal = true ∧ g.contains lat lon = true)) :
    alGet (DSM.getValuesAtPoint dm lat lon ids) id =
      some (DSM.extractFields layer.queryFields f.properties) ∧
    (∀ fs, layer.queryFields = some fs →
      (∀ k v, (k, v) ∈ DSM.extractFields (some fs) f.properties → k ∈ fs) ∧
      (∀ fld ∈ fs, alGet (DSM.extractFields (some fs) f.properties) fld =
        some (.v (getPropertyD f.properties fld)))) ∧
    (layer.queryFields = none →
      DSM.extractFields none f.properties =
        f.properties.map (fun p => (p.1, DSM.EntryVal.v p.2))) := by
  refine ⟨?_, ?_, fun _ => rfl⟩
  · rw [DSM.alGet_getValuesAtPoint, if_pos hm]
    simp [DSM.entryFor, hL, hD, DSM.entryBody, hF,
      DSM.firstContainingProps_eq_some feats lat lon i f hi hp hc hbefore]
  · intro fs _
    exact ⟨fun k v h => DSM.extractFields_keys fs f.properties k v h,
      fun fld h => DSM.alGet_extractFields_mem fs f.properties fld h⟩

/-- C5 (amended): for a tabular layer with at least one record carrying
a (numeric) year, the query groups records by year, selects the group
with the maximum year, and returns the compact summary object — whose
source tag is the string `csv_summary` (the claimed tag
`tabular_summary` appears nowhere in the code) — with `_recordCount`
the size of the selected group and `_sample` its first 3 records. -/
theorem claim_C5_tabular_latest_year (dm : DSM.DatasetManager)
    (lat lon : Rat) (ids : List String) (id : String) (layer : DSM.Layer)
    (recs : List Record)
    (hL : DSM.getLayerById dm id = some layer)
    (hF : layer.format = .csv)
    (hD : DSM.dataOf dm id = some (.rows recs))
    (hm : id ∈ ids)
    (hy : DSM.yearsOf recs ≠ [])
    (hnum : ∀ v ∈ DSM.yearsOf recs, ∃ q : Rat, v = Value.num q) :
    ∃ y : Rat,
      Value.num y ∈ DSM.yearsOf recs ∧
      (∀ q : Rat, Value.num q ∈ DSM.yearsOf recs → q ≤ y) ∧
      alGet (DSM.getValuesAtPoint dm lat lon ids) id = some
        [("_source", .v (.str "csv_summary")),
         ("_year", .v (.num y)),
         ("_recordCount", .v (.num ((DSM.latestGroup recs (Value.num y)).length : Rat))),
         ("_sample", .recs ((DSM.latestGroup recs (Value.num y)).take 3))] := by
  have hrecs : recs ≠ [] := by
    intro h
    subst h
    exact hy rfl
  have hlen : recs.length > 0 := List.length_pos.2 hrecs
  obtain ⟨v0, hv0⟩ := List.exists_mem_of_ne_nil _ hy
  have hsne : DSM.sortDescending (DSM.dedupFirst (DSM.yearsOf recs)) ≠ [] := by
    apply DSM.sortDescending_ne_nil
    intro hdd
    have := (DSM.mem_dedupFirst (DSM.yearsOf recs) v0).2 hv0
    rw [hdd] at this
    simp at this
  obtain ⟨latest, t, hsorted⟩ :=
    List.exists_cons_of_ne_nil hsne
  have hlatest_mem : latest ∈ DSM.yearsOf recs := by
    have : latest ∈ DSM.sortDescending (DSM.dedupFirst (DSM.yearsOf recs)) := by
      rw [hsorted]; simp
    rw [DSM.mem_sortDescending, DSM.mem_dedupFirst] at this
    exact this
  obtain ⟨y, hyq⟩ := hnum latest hlatest_mem
  subst hyq
  refine ⟨y, hlatest_mem, ?_, ?_⟩
  · intro q hq
    have hqmem : Value.num q ∈ DSM.sortDescending (DSM.dedupFirst (DSM.yearsOf recs)) := by
      rw [DSM.mem_sortDescending, DSM.mem_dedupFirst]
      exact hq
    have := DSM.sortDescending_headMax (DSM.dedupFirst (DSM.yearsOf recs))
      (Value.num y) t hsorted (Value.num q) hqmem
    simpa [DSM.toSortKey] using this
  · rw [DSM.alGet_getValuesAtPoint, if_pos hm]
    simp only [DSM.entryFor, hL, hD, DSM.entryBody, hF]
    rw [if_pos hlen]
    rw [DSM.csvSummary, hsorted]

/-- C5 counterexample: on a concrete tabular layer with records for
2018 and 2020 the query result object carries `_source =
"csv_summary"`, not the `_source = "tabular_summary"` shape stated by
the claim. -/
theorem claim_C5_counterexample :
    alGet
      (DSM.getValuesAtPoint
        { layers := [⟨"lulc", .csv, some []⟩],
          loadedData := [("lulc", .rows
            [[("year", Value.num 2018)],
             [("year", Value.num 2020), ("cls", Value.str "Trees")],
             [("year", Value.num 2020)]])] }
        1 2 ["lulc"]) "lulc" =
      some [("_source", DSM.EntryVal.v (Value.str "csv_summary")),
            ("_year", DSM.EntryVal.v (Value.num 2020)),
            ("_recordCount", DSM.EntryVal.v (Value.num 2)),
            ("_sample", DSM.EntryVal.recs
              [[("year", Value.num 2020), ("cls", Value.str "Trees")],
               [("year", Value.num 2020)]])] ∧
    ¬ alGet
      [("_source", DSM.EntryVal.v (Value.str "csv_summary")),
       ("_year", DSM.EntryVal.v (Value.num 2020)),
       ("_recordCount", DSM.EntryVal.v (Value.num 2)),
       ("_sample", DSM.EntryVal.recs
         [[("year", Value.num 2020), ("cls", Value.str "Trees")],
          [("year", Value.num 2020)]])] "_source" =
      some (DSM.EntryVal.v (Value.str "tabular_summary")) := by
  constructor
  · decide
  · decide

/-- C5 witness: the amended theorem applied to the concrete 2018/2020
layer, with every hypothesis discharged by evaluation. -/
theorem claim_C5_witness :
    DSM.yearsOf
      [[("year", Value.num 2018)],
       [("year", Value.num 2020), ("cls", Value.str "Trees")],
       [("year", Value.num 2020)]] ≠ [] ∧
    ∃ y : Rat,
      Value.num y ∈ DSM.yearsOf
        [[("year", Value.num 2018)],
         [("year", Value.num 2020), ("cls", Value.str "Trees")],
         [("year", Value.num 2020)]] ∧
      (∀ q : Rat, Value.num q ∈ DSM.yearsOf
        [[("year", Value.num 2018)],
         [("year", Value.num 2020), ("cls", Value.str "Trees")],
         [("year", Value.num 2020)]] → q ≤ y) ∧
      alGet
        (DSM.getValuesAtPoint
          { layers := [⟨"lulc", .csv, some []⟩],
            loadedData := [("lulc", .rows
              [[("year", Value.num 2018)],
               [("year", Value.num 2020), ("cls", Value.str "Trees")],
               [("year", Value.num 2020)]])] }
          1 2 ["lulc"]) "lulc" = some
        [("_source", .v (.str "csv_summary")),
         ("_year", .v (.num y)),
         ("_recordCount", .v (.num ((DSM.latestGroup
           [[("year", Value.num 2018)],
            [("year", Value.num 2020), ("cls", Value.str "Trees")],
            [("year", Value.num 2020)]] (Value.num y)).length : Rat))),
         ("_sample", .recs ((DSM.latestGroup
           [[("year", Value.num 2018)],
            [("year", Value.num 2020), ("cls", Value.str "Trees")],
            [("year", Value.num 2020)]] (Value.num y)).take 3))] :=
  ⟨by decide,
   claim_C5_tabular_latest_year
    { layers := [⟨"lulc", .csv, some []⟩],
      loadedData := [("lulc", .rows
        [[("year", Value.num 2018)],
         [("year", Value.num 2020), ("cls", Value.str "Trees")],
         [("year", Value.num 2020)]])] }
    1 2 ["lulc"] "lulc" ⟨"lulc", .csv, some []⟩
    [[("year", Value.num 2018)],
     [("year", Value.num 2020), ("cls", Value.str "Trees")],
     [("year", Value.num 2020)]]
    (by rfl) (by rfl) (by rfl) (by decide) (by decide)
    (by
      intro v hv
      have he : DSM.yearsOf
          [[("year", Value.num 2018)],
           [("year", Value.num 2020), ("cls", Value.str "Trees")],
           [("year", Value.num 2020)]] =
          [Value.num 2018, Value.num 2020, Value.num 2020] := by decide
      rw [he] at hv
      simp at hv
      rcases hv with rfl | rfl
      · exact ⟨2018, rfl⟩
      · exact ⟨2020, rfl⟩)⟩

/-- C6 witness: a concrete layer whose first feature is non-polygonal
and whose second and third features both contain the point; the second
feature (the first containing polygon in listed order) wins, and only
its declared `NAME` field is extracted. -/
theorem claim_C6_witness :
    DSM.Feature.polygonal ⟨.polygon, fun _ _ => true,
      [("NAME", Value.str "first"), ("EXTRA", Value.num 5)]⟩ = true ∧
    alGet
      (DSM.getValuesAtPoint
        { layers := [⟨"veg", .geojson, some ["NAME"]⟩],
          loadedData := [("veg", .geo
            [⟨.other, fun _ _ => true, [("NAME", Value.str "zero")]⟩,
             ⟨.polygon, fun _ _ => true,
               [("NAME", Value.str "first"), ("EXTRA", Value.num 5)]⟩,
             ⟨.polygon, fun _ _ => true, [("NAME", Value.str "second")]⟩])] }
        1 2 ["veg"]) "veg" =
      some (DSM.extractFields (some ["NAME"])
        [("NAME", Value.str "first"), ("EXTRA", Value.num 5)]) :=
  ⟨by decide,
   (claim_C6_vector_first_match
     { layers := [⟨"veg", .geojson, some ["NAME"]⟩],
       loadedData := [("veg", .geo
         [⟨.other, fun _ _ => true, [("NAME", Value.str "zero")]⟩,
          ⟨.polygon, fun _ _ => true,
            [("NAME", Value.str "first"), ("EXTRA", Value.num 5)]⟩,
          ⟨.polygon, fun _ _ => true, [("NAME", Value.str "second")]⟩])] }
     1 2 ["veg"] "veg" ⟨"veg", .geojson, some ["NAME"]⟩
     [⟨.other, fun _ _ => true, [("NAME", Value.str "zero")]⟩,
      ⟨.polygon, fun _ _ => true,
        [("NAME", Value.str "first"), ("EXTRA", Value.num 5)]⟩,
      ⟨.polygon, fun _ _ => true, [("NAME", Value.str "second")]⟩]
     1
     ⟨.polygon, fun _ _ => true,
       [("NAME", Value.str "first"), ("EXTRA", Value.num 5)]⟩
     (by rfl) rfl (by rfl) (by decide) (by rfl) (by decide) (by rfl)
     (by
       intro j hj g hg
       cases j with
       | zero =>
         have hg2 := Option.some.inj hg
         intro hcon
         rw [← hg2] at hcon
         exact absurd hcon.1 (by decide)
       | succ n => exact absurd hj (by omega))).1⟩

/-- C10 witness: with a catalog containing only the layer `veg` (whose
single feature does not contain the point), the active id `ghost`
contributes no entry while `veg` contributes the empty object. -/
theorem claim_C10_witness :
    alGet
      (DSM.getValuesAtPoint
        { layers := [⟨"veg", .geojson, some ["A"]⟩],
          loadedData := [("veg", .geo
            [⟨.polygon, fun _ _ => false, [("A", Value.num 1)]⟩])] }
        1 2 ["veg", "ghost"]) "ghost" = none ∧
    alGet
      (DSM.getValuesAtPoint
        { layers := [⟨"veg", .geojson, some ["A"]⟩],
          loadedData := [("veg", .geo
            [⟨.polygon, fun _ _ => false, [("A", Value.num 1)]⟩])] }
        1 2 ["veg", "ghost"]) "veg" = some [] :=
  ⟨(claim_C10_missing_vs_empty
      { layers := [⟨"veg", .geojson, some ["A"]⟩],
        loadedData := [("veg", .geo
          [⟨.polygon, fun _ _ => false, [("A", Value.num 1)]⟩])] }
      1 2 ["veg", "ghost"] "ghost").1 (Or.inl (by rfl)),
   (claim_C10_missing_vs_empty
      { layers := [⟨"veg", .geojson, some ["A"]⟩],
        loadedData := [("veg", .geo
          [⟨.polygon, fun _ _ => false, [("A", Value.num 1)]⟩])] }
      1 2 ["veg", "ghost"] "veg").2
     ⟨"veg", .geojson, some ["A"]⟩
     [⟨.polygon, fun _ _ => false, [("A", Value.num 1)]⟩]
     (by rfl) rfl (by rfl) (by decide)
     (by
       intro f hf
       rw [List.mem_singleton] at hf
       subst hf
       rintro ⟨h1, h2⟩
       exact absurd h2 (by decide))⟩

/-- C7 witness: the cache theorem applied to a concrete online state
with an empty cache: the first query at (12.9, 74.85) fetches and the
second query 1000 ms later performs no request and returns the same
payload; and an offline query returns null without a request. -/
theorem claim_C7_witness :
    Weather.getWeather ⟨false, []⟩ 1 2 0 .failed = (none, ⟨false, []⟩, false) ∧
    ∃ (wd : Weather.WeatherData) (st2 : Weather.WeatherState),
      Weather.getWeather ⟨true, []⟩ (129/10 : Rat) (1497/20 : Rat) 0 (.ok "report") =
        (some wd, st2, true) ∧
      wd.payload = "report" ∧
      Weather.getWeather st2 (129/10 : Rat) (1497/20 : Rat) 1000 .failed =
        (some wd, st2, false) := by
  constructor
  · exact claim_C7_weather_cache.1 ⟨false, []⟩ 1 2 0 .failed rfl
  · obtain ⟨wd, st2, h1, h2, h3⟩ :=
      claim_C7_weather_cache.2.2 ⟨true, []⟩ (129/10 : Rat) (1497/20 : Rat) 0 "report"
        rfl (by intro c hc; simp [alGet] at hc)
    exact ⟨wd, st2, h1, h2, h3 (129/10 : Rat) (1497/20 : Rat) 1000 .failed rfl rfl (by decide)⟩

/-- C3: `enrichLocation` is total (the embedding is a function into
`LocationEnrichment`), it factors through the `Promise.allSettled`
merge, each optional slot of the merge depends only on its own branch
outcome (a failure in one branch never prevents the fulfilled value
of another branch from appearing), and when every branch fails the
result has every optional block absent and a populated `errors`
list. -/
theorem claim_C3_fail_soft :
    (∀ (st : LDS.ServiceState) (env : LDS.Env) (lat lon : Rat)
        (onl : Bool) (ts : String),
      LDS.enrichLocation st env lat lon onl ts =
        LDS.settleMerge (LDS.baseEnrichment lat lon onl ts)
          (.fulfilled (some (LDS.getLocalData st lat lon)))
          (LDS.toSettled (LDS.getAdminData st env lat lon onl))
          (.fulfilled (LDS.getLandCoverData env))
          (.fulfilled (LDS.getWatershedData env onl))
          (.fulfilled (if onl then env.weatherResult else none))) ∧
    (∀ (base : LDS.LocationEnrichment)
        (o1 : LDS.Settled (Option DSM.DatasetValues))
        (o2 : LDS.Settled (Option LDS.Admin))
        (o3 : LDS.Settled (Option LDS.LandCover))
        (o4 : LDS.Settled (Option LDS.Watershed))
        (o5 : LDS.Settled (Option Weather.WeatherData)),
      (LDS.settleMerge base o1 o2 o3 o4 o5).localData =
        (match o1 with | .fulfilled (some v) => some v | _ => base.localData) ∧
      (LDS.settleMerge base o1 o2 o3 o4 o5).admin =
        (match o2 with | .fulfilled (some v) => some v | _ => base.admin) ∧
      (LDS.settleMerge base o1 o2 o3 o4 o5).landCover =
        (match o3 with | .fulfilled (some v) => some v | _ => base.landCover) ∧
      (LDS.settleMerge base o1 o2 o3 o4 o5).watershed =
        (match o4 with | .fulfilled (some v) => some v | _ => base.watershed) ∧
      (LDS.settleMerge base o1 o2 o3 o4 o5).weather =
        (match o5 with | .fulfilled (some v) => some v | _ => base.weather)) ∧
    (∀ (lat lon : Rat) (onl : Bool) (ts r1 r2 r3 r4 : String)
        (o5 : LDS.Settled (Option Weather.WeatherData)),
      (∀ p, o5 ≠ .fulfilled (some p)) →
      ∀ r, r = LDS.settleMerge (LDS.baseEnrichment lat lon onl ts)
        (.rejected r1) (.rejected r2) (.rejected r3) (.rejected r4) o5 →
      r.localData = none ∧ r.admin = none ∧ r.landCover = none ∧
      r.watershed = none ∧ r.weather = none ∧ r.errors ≠ []) := by
  refine ⟨fun st env lat lon onl ts => rfl, ?_, ?_⟩
  · intro base o1 o2 o3 o4 o5
    have h := LDS.settleMerge_slots base o1 o2 o3 o4 o5
    exact ⟨h.1, h.2.1, h.2.2.1, h.2.2.2.1, h.2.2.2.2.1⟩
  · intro lat lon onl ts r1 r2 r3 r4 o5 h5 r hr
    subst hr
    have h := LDS.settleMerge_slots (LDS.baseEnrichment lat lon onl ts)
      (.rejected r1) (.rejected r2) (.rejected r3) (.rejected r4) o5
    have herr := LDS.settleMerge_errors (LDS.baseEnrichment lat lon onl ts)
      (.rejected r1) (.rejected r2) (.rejected r3) (.rejected r4) o5
    refine ⟨?_, ?_, ?_, ?_, ?_, ?_⟩
    · rw [h.1]; rfl
    · rw [h.2.1]; rfl
    · rw [h.2.2.1]; rfl
    · rw [h.2.2.2.1]; rfl
    · rw [h.2.2.2.2.1]
      rcases o5 with ⟨_ | p⟩ | r5
      · rfl
      · exact absurd rfl (h5 p)
      · rfl
    · rw [herr]
      simp [LDS.baseEnrichment]

/-- C3 witness: the worst-case clause of the fail-soft theorem applied
to concrete rejection reasons (with the weather branch resolved to
null), and the factorization applied to a concrete state. -/
theorem claim_C3_witness :
    (LDS.settleMerge (LDS.baseEnrichment 1 2 false "t")
      (.rejected "a") (.rejected "b") (.rejected "c") (.rejected "d")
      (.fulfilled none)).localData = none ∧
    (LDS.settleMerge (LDS.baseEnrichment 1 2 false "t")
      (.rejected "a") (.rejected "b") (.rejected "c") (.rejected "d")
      (.fulfilled none)).admin = none ∧
    (LDS.settleMerge (LDS.baseEnrichment 1 2 false "t")
      (.rejected "a") (.rejected "b") (.rejected "c") (.rejected "d")
      (.fulfilled none)).landCover = none ∧
    (LDS.settleMerge (LDS.baseEnrichment 1 2 false "t")
      (.rejected "a") (.rejected "b") (.rejected "c") (.rejected "d")
      (.fulfilled none)).watershed = none ∧
    (LDS.settleMerge (LDS.baseEnrichment 1 2 false "t")
      (.rejected "a") (.rejected "b") (.rejected "c") (.rejected "d")
      (.fulfilled none)).weather = none ∧
    (LDS.settleMerge (LDS.baseEnrichment 1 2 false "t")
      (.rejected "a") (.rejected "b") (.rejected "c") (.rejected "d")
      (.fulfilled none)).errors ≠ [] :=
  claim_C3_fail_soft.2.2 1 2 false "t" "a" "b" "c" "d" (.fulfilled none)
    (fun p h => by simp at h) _ rfl

/-- C4 (amended): each of the local, administrative, land-cover and
watershed branches that settles as rejected contributes its diagnostic
string to `errors` (a rejected weather branch contributes nothing, the
merge has no rejected case for it); however an HTTP 500 from the
administrative remote adapter does not reject the admin branch — the
failure is caught inside `getAdminData`, which falls back to boundary
containment — so with both CoreStack calls failing and no containing
boundary, the enrichment has watershed absent, weather populated when
online and the weather adapter succeeds, no admin block, and an empty
`errors` list (no entry references the administrative failure). -/
theorem claim_C4_amended :
    (∀ (base : LDS.LocationEnrichment)
        (o1 : LDS.Settled (Option DSM.DatasetValues))
        (o2 : LDS.Settled (Option LDS.Admin))
        (o3 : LDS.Settled (Option LDS.LandCover))
        (o4 : LDS.Settled (Option LDS.Watershed))
        (o5 : LDS.Settled (Option Weather.WeatherData)),
      (∀ r, o1 = .rejected r →
        ("Local data: " ++ r) ∈ (LDS.settleMerge base o1 o2 o3 o4 o5).errors) ∧
      (∀ r, o2 = .rejected r →
        ("Admin data: " ++ r) ∈ (LDS.settleMerge base o1 o2 o3 o4 o5).errors) ∧
      (∀ r, o3 = .rejected r →
        ("Land cover: " ++ r) ∈ (LDS.settleMerge base o1 o2 o3 o4 o5).errors) ∧
      (∀ r, o4 = .rejected r →
        ("Watershed: " ++ r) ∈ (LDS.settleMerge base o1 o2 o3 o4 o5).errors) ∧
      (∀ r5, LDS.settleMerge base o1 o2 o3 o4 (.rejected r5) =
        LDS.settleMerge base o1 o2 o3 o4 (.fulfilled none))) ∧
    (∀ (st : LDS.ServiceState) (env : LDS.Env) (lat lon : Rat)
        (ts msg msg2 : String) (w : Weather.WeatherData),
      env.hasApiKey = true →
      env.adminCall = .error msg →
      env.mwsCall = .error msg2 →
      env.weatherResult = some w →
      LDS.isPointInBoundary st lat lon "dakshina_kannada" = none →
      LDS.isPointInBoundary st lat lon "western_ghats" = none →
      (LDS.enrichLocation st env lat lon true ts).watershed = none ∧
      (LDS.enrichLocation st env lat lon true ts).weather = some w ∧
      (LDS.enrichLocation st env lat lon true ts).admin = none ∧
      (LDS.enrichLocation st env lat lon true ts).errors = []) := by
  constructor
  · intro base o1 o2 o3 o4 o5
    refine ⟨?_, ?_, ?_, ?_, fun r5 => rfl⟩
    · intro r hr
      subst hr
      rw [LDS.settleMerge_errors]
      simp
    · intro r hr
      subst hr
      rw [LDS.settleMerge_errors]
      simp
    · intro r hr
      subst hr
      rw [LDS.settleMerge_errors]
      simp
    · intro r hr
      subst hr
      rw [LDS.settleMerge_errors]
      simp
  · intro st env lat lon ts msg msg2 w hkey hadmin hmws hw hdk hwg
    have hadm : LDS.getAdminData st env lat lon true = .ok none := by
      simp [LDS.getAdminData, hkey, hadmin, hdk, hwg]
    have hws : LDS.getWatershedData env true = none := by
      simp [LDS.getWatershedData, hkey, hmws]
    have hslots := LDS.settleMerge_slots (LDS.baseEnrichment lat lon true ts)
      (.fulfilled (some (LDS.getLocalData st lat lon)))
      (LDS.toSettled (LDS.getAdminData st env lat lon true))
      (.fulfilled (LDS.getLandCoverData env))
      (.fulfilled (LDS.getWatershedData env true))
      (.fulfilled (if true then env.weatherResult else none))
    have herr := LDS.settleMerge_errors (LDS.baseEnrichment lat lon true ts)
      (.fulfilled (some (LDS.getLocalData st lat lon)))
      (LDS.toSettled (LDS.getAdminData st env lat lon true))
      (.fulfilled (LDS.getLandCoverData env))
      (.fulfilled (LDS.getWatershedData env true))
      (.fulfilled (if true then env.weatherResult else none))
    rw [hadm, hws] at hslots herr
    refine ⟨?_, ?_, ?_, ?_⟩
    · show (LDS.settleMerge _ _ _ _ _ _).watershed = none
      rw [hadm, hws, hslots.2.2.2.1]
      rfl
    · show (LDS.settleMerge _ _ _ _ _ _).weather = some w
      rw [hadm, hws, hslots.2.2.2.2.1]
      simp [hw]
    · show (LDS.settleMerge _ _ _ _ _ _).admin = none
      rw [hadm, hws, hslots.2.1]
      rfl
    · show (LDS.settleMerge _ _ _ _ _ _).errors = []
      rw [hadm, hws, herr]
      rfl

/-- C4 counterexample: with the administrative remote adapter failing
(HTTP 500), an online enrichment at a point outside all boundaries
returns watershed absent and the weather block, but its `errors` list
is empty — not the exactly-one administrative entry stated by the
claim (the admin failure is caught and only logged). -/
theorem claim_C4_counterexample :
    (LDS.enrichLocation
      ⟨⟨none, false⟩, ⟨none, false⟩, false, [], ⟨[], []⟩⟩
      ⟨true, .error "API error: 500", .error "API error: 500", .ok [],
        some ⟨"sunny", 0⟩, none⟩
      (129/10 : Rat) (1497/20 : Rat) true "t").errors = [] ∧
    (LDS.enrichLocation
      ⟨⟨none, false⟩, ⟨none, false⟩, false, [], ⟨[], []⟩⟩
      ⟨true, .error "API error: 500", .error "API error: 500", .ok [],
        some ⟨"sunny", 0⟩, none⟩
      (129/10 : Rat) (1497/20 : Rat) true "t").watershed = none ∧
    (LDS.enrichLocation
      ⟨⟨none, false⟩, ⟨none, false⟩, false, [], ⟨[], []⟩⟩
      ⟨true, .error "API error: 500", .error "API error: 500", .ok [],
        some ⟨"sunny", 0⟩, none⟩
      (129/10 : Rat) (1497/20 : Rat) true "t").weather = some ⟨"sunny", 0⟩ ∧
    (LDS.enrichLocation
      ⟨⟨none, false⟩, ⟨none, false⟩, false, [], ⟨[], []⟩⟩
      ⟨true, .error "API error: 500", .error "API error: 500", .ok [],
        some ⟨"sunny", 0⟩, none⟩
      (129/10 : Rat) (1497/20 : Rat) true "t").admin = none := by
  refine ⟨?_, ?_, ?_, ?_⟩ <;> decide

/-- C4 witness: the amended theorem applied to a rejected admin branch
outcome (the diagnostic lands in `errors`) and to the concrete
HTTP-500 scenario state. -/
theorem claim_C4_witness :
    ("Admin data: boom") ∈ (LDS.settleMerge (LDS.baseEnrichment 1 2 true "t")
      (.fulfilled none) (.rejected "boom") (.fulfilled none)
      (.fulfilled none) (.fulfilled none)).errors ∧
    ((LDS.enrichLocation
        ⟨⟨none, false⟩, ⟨none, false⟩, false, [], ⟨[], []⟩⟩
        ⟨true, .error "API error: 500", .error "API error: 500", .ok [],
          some ⟨"sunny", 0⟩, none⟩
        (129/10 : Rat) (1497/20 : Rat) true "t").watershed = none ∧
      (LDS.enrichLocation
        ⟨⟨none, false⟩, ⟨none, false⟩, false, [], ⟨[], []⟩⟩
        ⟨true, .error "API error: 500", .error "API error: 500", .ok [],
          some ⟨"sunny", 0⟩, none⟩
        (129/10 : Rat) (1497/20 : Rat) true "t").weather = some ⟨"sunny", 0⟩ ∧
      (LDS.enrichLocation
        ⟨⟨none, false⟩, ⟨none, false⟩, false, [], ⟨[], []⟩⟩
        ⟨true, .error "API error: 500", .error "API error: 500", .ok [],
          some ⟨"sunny", 0⟩, none⟩
        (129/10 : Rat) (1497/20 : Rat) true "t").admin = none ∧
      (LDS.enrichLocation
        ⟨⟨none, false⟩, ⟨none, false⟩, false, [], ⟨[], []⟩⟩
        ⟨true, .error "API error: 500", .error "API error: 500", .ok [],
          some ⟨"sunny", 0⟩, none⟩
        (129/10 : Rat) (1497/20 : Rat) true "t").errors = []) :=
  ⟨(claim_C4_amended.1 (LDS.baseEnrichment 1 2 true "t")
      (.fulfilled none) (.rejected "boom") (.fulfilled none)
      (.fulfilled none) (.fulfilled none)).2.1 "boom" rfl,
   claim_C4_amended.2
      ⟨⟨none, false⟩, ⟨none, false⟩, false, [], ⟨[], []⟩⟩
      ⟨true, .error "API error: 500", .error "API error: 500", .ok [],
        some ⟨"sunny", 0⟩, none⟩
      (129/10 : Rat) (1497/20 : Rat) "t" "API error: 500" "API error: 500"
      ⟨"sunny", 0⟩ rfl rfl rfl rfl (by rfl) (by rfl)⟩

theorem LDS.getAdminData_fallback (st : LDS.ServiceState) (env : LDS.Env)
    (lat lon : Rat) (onl : Bool)
    (h : ∀ a : AdminDetails,
      ¬(onl = true ∧ env.hasApiKey = true ∧ env.adminCall = .ok (some a) ∧
        (strTruthy a.state_name || strTruthy a.district_name) = true)) :
    LDS.getAdminData st env lat lon onl =
      match LDS.isPointInBoundary st lat lon "dakshina_kannada" with
      | some props =>
        (match LDS.getLocalBlockData st
            (jsOr (getPropertyD props "DISTRICT") (getPropertyD props "district")) with
         | .ok lb => .ok (some (LDS.dkAdminBlock
             (jsOr (getPropertyD props "ST_NM") (getPropertyD props "state"))
             (jsOr (getPropertyD props "DISTRICT") (getPropertyD props "district")) lb))
         | .error e => .error e)
      | none =>
        match LDS.isPointInBoundary st lat lon "western_ghats" with
        | some _ => .ok (some LDS.wgAdminBlock)
        | none => .ok none := by
  have hrem : (if onl && env.hasApiKey then
      match env.adminCall with
      | .ok (some a) =>
        if strTruthy a.state_name || strTruthy a.district_name then
          some (LDS.remoteAdminBlock a)
        else none
      | _ => none
      else none) = (none : Option LDS.Admin) := by
    by_cases hcond : (onl && env.hasApiKey) = true
    · rw [if_pos hcond]
      rcases Bool.and_eq_true_iff.1 hcond with ⟨h1, h2⟩
      cases hac : env.adminCall with
      | error e => rfl
      | ok v =>
        cases v with
        | none => rfl
        | some a =>
          by_cases hne : (strTruthy a.state_name || strTruthy a.district_name) = true
          · exact absurd ⟨h1, h2, hac, hne⟩ (h a)
          · simp [hne]
    · rw [if_neg hcond]
  simp only [LDS.getAdminData]
  rw [hrem]

/-- C1 (amended): the administrative block is resolved by the fixed
priority chain — remote CoreStack result (online, credentialed,
non-empty) first with source `corestack_api`; otherwise the Dakshina
Kannada boundary before the Western Ghats boundary, a containing
boundary yielding a block with source `boundary_geojson` and confidence
`verified`; otherwise no block — provided the district-block lookup of
a Dakshina Kannada hit does not fault.  When the matched feature
carries no string district property and the local blocks CSV is
loaded, that lookup throws, the admin branch rejects, and the
enrichment instead has no admin block and an error entry (this is the
one departure from the claim).  Offline, the watershed and weather
blocks are absent. -/
theorem claim_C1_admin_priority (st : LDS.ServiceState) (env : LDS.Env)
    (lat lon : Rat) (onl : Bool) (ts : String) :
    (∀ a : AdminDetails, onl = true → env.hasApiKey = true →
      env.adminCall = .ok (some a) →
      (strTruthy a.state_name || strTruthy a.district_name) = true →
      (LDS.enrichLocation st env lat lon onl ts).admin =
        some (LDS.remoteAdminBlock a) ∧
      (LDS.remoteAdminBlock a).source = .corestack_api ∧
      (LDS.remoteAdminBlock a).confidence = .verified) ∧
    ((∀ a : AdminDetails,
        ¬(onl = true ∧ env.hasApiKey = true ∧ env.adminCall = .ok (some a) ∧
          (strTruthy a.state_name || strTruthy a.district_name) = true)) →
      (∀ (props : Record) (lb : Option LDS.BlockRow),
        LDS.isPointInBoundary st lat lon "dakshina_kannada" = some props →
        LDS.getLocalBlockData st
          (jsOr (getPropertyD props "DISTRICT") (getPropertyD props "district")) = .ok lb →
        (LDS.enrichLocation st env lat lon onl ts).admin =
          some (LDS.dkAdminBlock
            (jsOr (getPropertyD props "ST_NM") (getPropertyD props "state"))
            (jsOr (getPropertyD props "DISTRICT") (getPropertyD props "district")) lb) ∧
        (LDS.dkAdminBlock
            (jsOr (getPropertyD props "ST_NM") (getPropertyD props "state"))
            (jsOr (getPropertyD props "DISTRICT") (getPropertyD props "district")) lb).source =
          .boundary_geojson ∧
        (LDS.dkAdminBlock
            (jsOr (getPropertyD props "ST_NM") (getPropertyD props "state"))
            (jsOr (getPropertyD props "DISTRICT") (getPropertyD props "district")) lb).confidence =
          .verified) ∧
      (∀ (props : Record) (e : String),
        LDS.isPointInBoundary st lat lon "dakshina_kannada" = some props →
        LDS.getLocalBlockData st
          (jsOr (getPropertyD props "DISTRICT") (getPropertyD props "district")) = .error e →
        (LDS.enrichLocation st env lat lon onl ts).admin = none ∧
        ("Admin data: " ++ e) ∈ (LDS.enrichLocation st env lat lon onl ts).errors) ∧
      (∀ props2 : Record,
        LDS.isPointInBoundary st lat lon "dakshina_kannada" = none →
        LDS.isPointInBoundary st lat lon "western_ghats" = some props2 →
        (LDS.enrichLocation st env lat lon onl ts).admin = some LDS.wgAdminBlock ∧
        LDS.wgAdminBlock.source = .boundary_geojson ∧
        LDS.wgAdminBlock.confidence = .verified) ∧
      (LDS.isPointInBoundary st lat lon "dakshina_kannada" = none →
        LDS.isPointInBoundary st lat lon "western_ghats" = none →
        (LDS.enrichLocation st env lat lon onl ts).admin = none)) ∧
    (onl = false →
      (LDS.enrichLocation st env lat lon onl ts).watershed = none ∧
      (LDS.enrichLocation st env lat lon onl ts).weather = none) := by
  refine ⟨?_, ?_, ?_⟩
  · intro a honl hkey hac hne
    have hadm : LDS.getAdminData st env lat lon onl =
        .ok (some (LDS.remoteAdminBlock a)) := by
      simp [LDS.getAdminData, honl, hkey, hac, hne]
    refine ⟨?_, rfl, rfl⟩
    show (LDS.settleMerge _ _ _ _ _ _).admin = _
    rw [hadm, (LDS.settleMerge_slots _ _ _ _ _ _).2.1]
    rfl
  · intro hno
    have hfb := LDS.getAdminData_fallback st env lat lon onl hno
    refine ⟨?_, ?_, ?_, ?_⟩
    · intro props lb hdk hlb
      have hadm : LDS.getAdminData st env lat lon onl =
          .ok (some (LDS.dkAdminBlock
            (jsOr (getPropertyD props "ST_NM") (getPropertyD props "state"))
            (jsOr (getPropertyD props "DISTRICT") (getPropertyD props "district")) lb)) := by
        simp [hfb, hdk, hlb]
      refine ⟨?_, rfl, rfl⟩
      show (LDS.settleMerge _ _ _ _ _ _).admin = _
      rw [hadm, (LDS.settleMerge_slots _ _ _ _ _ _).2.1]
      rfl
    · intro props e hdk hlb
      have hadm : LDS.getAdminData st env lat lon onl = .error e := by
        simp [hfb, hdk, hlb]
      constructor
      · show (LDS.settleMerge _ _ _ _ _ _).admin = _
        rw [hadm, (LDS.settleMerge_slots _ _ _ _ _ _).2.1]
        rfl
      · show ("Admin data: " ++ e) ∈ (LDS.settleMerge _ _ _ _ _ _).errors
        rw [hadm, LDS.settleMerge_errors]
        simp [LDS.toSettled]
    · intro props2 hdk hwg
      have hadm : LDS.getAdminData st env lat lon onl =
          .ok (some LDS.wgAdminBlock) := by
        simp [hfb, hdk, hwg]
      refine ⟨?_, rfl, rfl⟩
      show (LDS.settleMerge _ _ _ _ _ _).admin = _
      rw [hadm, (LDS.settleMerge_slots _ _ _ _ _ _).2.1]
      rfl
    · intro hdk hwg
      have hadm : LDS.getAdminData st env lat lon onl = .ok none := by
        simp [hfb, hdk, hwg]
      show (LDS.settleMerge _ _ _ _ _ _).admin = _
      rw [hadm, (LDS.settleMerge_slots _ _ _ _ _ _).2.1]
      rfl
  · intro hoff
    subst hoff
    constructor
    · show (LDS.settleMerge _ _ _ _ _ _).watershed = _
      rw [(LDS.settleMerge_slots _ _ _ _ _ _).2.2.2.1]
      rfl
    · show (LDS.settleMerge _ _ _ _ _ _).weather = _
      rw [(LDS.settleMerge_slots _ _ _ _ _ _).2.2.2.2.1]
      rfl

/-- C1 counterexample: a loaded Dakshina Kannada boundary whose
containing feature carries no district property, with the local blocks
CSV loaded, at (12.90, 74.85) offline: the point is inside the loaded
boundary, yet the enrichment has no administrative block at all — the
admin branch rejects with a `TypeError` — contradicting the claim that
a containing boundary yields a `boundary polygon`/`verified` block. -/
theorem claim_C1_counterexample :
    LDS.isPointInBoundary
      ⟨⟨some [⟨.polygon, fun _ _ => true, []⟩], true⟩, ⟨none, false⟩,
        true, [], ⟨[], []⟩⟩
      (129/10 : Rat) (1497/20 : Rat) "dakshina_kannada" = some [] ∧
    (LDS.enrichLocation
      ⟨⟨some [⟨.polygon, fun _ _ => true, []⟩], true⟩, ⟨none, false⟩,
        true, [], ⟨[], []⟩⟩
      ⟨false, .ok none, .ok none, .ok [], none, none⟩
      (129/10 : Rat) (1497/20 : Rat) false "t").admin = none ∧
    (LDS.enrichLocation
      ⟨⟨some [⟨.polygon, fun _ _ => true, []⟩], true⟩, ⟨none, false⟩,
        true, [], ⟨[], []⟩⟩
      ⟨false, .ok none, .ok none, .ok [], none, none⟩
      (129/10 : Rat) (1497/20 : Rat) false "t").errors =
      ["Admin data: TypeError: district.toLowerCase is not a function"] := by
  refine ⟨?_, ?_, ?_⟩ <;> decide

/-- C1 witness: the amended chain theorem applied to the concrete
scenario — (12.90, 74.85) inside the loaded Dakshina Kannada boundary
whose feature carries its district name, offline: the admin block comes
from the boundary with source `boundary_geojson` and confidence
`verified`, and the watershed and weather blocks are absent. -/
theorem claim_C1_witness :
    ((LDS.enrichLocation
        ⟨⟨some [⟨.polygon,
            fun _ _ => true,
            [("ST_NM", Value.str "Karnataka"),
             ("DISTRICT", Value.str "Dakshina Kannada")]⟩], true⟩,
          ⟨none, false⟩, false, [], ⟨[], []⟩⟩
        ⟨false, .ok none, .ok none, .ok [], none, none⟩
        (129/10 : Rat) (1497/20 : Rat) false "t").admin =
      some (LDS.dkAdminBlock
        (jsOr (getPropertyD
          [("ST_NM", Value.str "Karnataka"),
           ("DISTRICT", Value.str "Dakshina Kannada")] "ST_NM")
          (getPropertyD
            [("ST_NM", Value.str "Karnataka"),
             ("DISTRICT", Value.str "Dakshina Kannada")] "state"))
        (jsOr (getPropertyD
          [("ST_NM", Value.str "Karnataka"),
           ("DISTRICT", Value.str "Dakshina Kannada")] "DISTRICT")
          (getPropertyD
            [("ST_NM", Value.str "Karnataka"),
             ("DISTRICT", Value.str "Dakshina Kannada")] "district")) none) ∧
      (LDS.dkAdminBlock
        (jsOr (getPropertyD
          [("ST_NM", Value.str "Karnataka"),
           ("DISTRICT", Value.str "Dakshina Kannada")] "ST_NM")
          (getPropertyD
            [("ST_NM", Value.str "Karnataka"),
             ("DISTRICT", Value.str "Dakshina Kannada")] "state"))
        (jsOr (getPropertyD
          [("ST_NM", Value.str "Karnataka"),
           ("DISTRICT", Value.str "Dakshina Kannada")] "DISTRICT")
          (getPropertyD
            [("ST_NM", Value.str "Karnataka"),
             ("DISTRICT", Value.str "Dakshina Kannada")] "district")) none).source =
        .boundary_geojson ∧
      (LDS.dkAdminBlock
        (jsOr (getPropertyD
          [("ST_NM", Value.str "Karnataka"),
           ("DISTRICT", Value.str "Dakshina Kannada")] "ST_NM")
          (getPropertyD
            [("ST_NM", Value.str "Karnataka"),
             ("DISTRICT", Value.str "Dakshina Kannada")] "state"))
        (jsOr (getPropertyD
          [("ST_NM", Value.str "Karnataka"),
           ("DISTRICT", Value.str "Dakshina Kannada")] "DISTRICT")
          (getPropertyD
            [("ST_NM", Value.str "Karnataka"),
             ("DISTRICT", Value.str "Dakshina Kannada")] "district")) none).confidence =
        .verified) ∧
    ((LDS.enrichLocation
        ⟨⟨some [⟨.polygon,
            fun _ _ => true,
            [("ST_NM", Value.str "Karnataka"),
             ("DISTRICT", Value.str "Dakshina Kannada")]⟩], true⟩,
          ⟨none, false⟩, false, [], ⟨[], []⟩⟩
        ⟨false, .ok none, .ok none, .ok [], none, none⟩
        (129/10 : Rat) (1497/20 : Rat) false "t").watershed = none ∧
      (LDS.enrichLocation
        ⟨⟨some [⟨.polygon,
            fun _ _ => true,
            [("ST_NM", Value.str "Karnataka"),
             ("DISTRICT", Value.str "Dakshina Kannada")]⟩], true⟩,
          ⟨none, false⟩, false, [], ⟨[], []⟩⟩
        ⟨false, .ok none, .ok none, .ok [], none, none⟩
        (129/10 : Rat) (1497/20 : Rat) false "t").weather = none) :=
  ⟨((claim_C1_admin_priority
      ⟨⟨some [⟨.polygon,
          fun _ _ => true,
          [("ST_NM", Value.str "Karnataka"),
           ("DISTRICT", Value.str "Dakshina Kannada")]⟩], true⟩,
        ⟨none, false⟩, false, [], ⟨[], []⟩⟩
      ⟨false, .ok none, .ok none, .ok [], none, none⟩
      (129/10 : Rat) (1497/20 : Rat) false "t").2.1
      (fun a hc => by simp at hc)).1
    [("ST_NM", Value.str "Karnataka"),
     ("DISTRICT", Value.str "Dakshina Kannada")] none
    (by rfl) (by rfl),
   (claim_C1_admin_priority
      ⟨⟨some [⟨.polygon,
          fun _ _ => true,
          [("ST_NM", Value.str "Karnataka"),
           ("DISTRICT", Value.str "Dakshina Kannada")]⟩], true⟩,
        ⟨none, false⟩, false, [], ⟨[], []⟩⟩
      ⟨false, .ok none, .ok none, .ok [], none, none⟩
      (129/10 : Rat) (1497/20 : Rat) false "t").2.2 rfl⟩

/-- C2: evaluation of the legacy `getAdminData` kept in the repository
at the failing input.  Offline (remote unavailable) at (12.90, 74.85),
with no boundary data consulted at all, it fabricates an administrative
block from the hard-coded Dakshina Kannada bounding box — an
`(estimated)` district — and at (15, 76) a Western Ghats block from the
outer bounding box, contradicting the claim that administrative
identity is never derived from a coordinate bounding-box heuristic. -/
theorem claim_C2_legacy_bbox_eval :
    LegacyLDS.getAdminData false (.ok none) (129/10 : Rat) (1497/20 : Rat) false =
      some ⟨some "Karnataka", some "Dakshina Kannada (estimated)", none, "local"⟩ ∧
    LegacyLDS.getAdminData false (.ok none) (15 : Rat) (76 : Rat) false =
      some ⟨some "Western Ghats Region", none, none, "local"⟩ := by
  constructor
  · rw [LegacyLDS.getAdminData]
    norm_num
    intro a h
    simp at h
  · rw [LegacyLDS.getAdminData]
    norm_num
    intro a h
    simp at h
